/-
  Formal model of the faceted song-catalog backend (1001 songs):
  the data model (migrations + spec section 3), the read endpoints of
  src/src/location/routers.py, the cache layer of src/src/database/redis.py
  and the admin taxonomy guard of src/src/admin/song.py, together with
  theorems settling the specification claims.
-/
import Mathlib

set_option maxHeartbeats 1000000

/-- Country table: id, name (spec section 3; src/src/location models). -/
structure Country where
  id : Nat
  name : String
deriving DecidableEq

/-- Region table: id, name, country_id. -/
structure Region where
  id : Nat
  name : String
  country_id : Nat
deriving DecidableEq

/-- City table: id, name, region_id, country_id (denormalized), latitude,
longitude, photo. Coordinates are opaque payloads for the claims, modelled
as integers. -/
structure City where
  id : Nat
  name : String
  region_id : Nat
  country_id : Nat
  latitude : Int
  longitude : Int
  photo : String
deriving DecidableEq

/-- Genre table (migration 64820a3923c0): id, genre_name. -/
structure Genre where
  id : Nat
  genre_name : String
deriving DecidableEq

/-- Fund table: id, title. -/
structure Fund where
  id : Nat
  title : String
deriving DecidableEq

/-- Song (Record) row: the columns the filter engine reads.  Display-only
media/metadata columns are irrelevant to every claim and omitted. -/
structure Song where
  id : Nat
  title : String
  is_active : Bool
  city_id : Nat
  fund_id : Nat
deriving DecidableEq

/-- A database snapshot: the relational tables, plus the two many-to-many
association tables song_genre_association (pairs (song_id, genre_id)) and
the education-genre association (pairs (song_id, education_genre_id)). -/
structure DB where
  countries : List Country
  regions : List Region
  cities : List City
  genres : List Genre
  funds : List Fund
  songs : List Song
  songGenres : List (Nat × Nat)
  songEducationGenres : List (Nat × Nat)
deriving DecidableEq

/-- The optional query parameters of the read endpoints.  FastAPI defaults
each ID list to None and Python applies the filter only when the value is
truthy, so None and [] behave identically: the empty list models an absent
parameter (likewise the empty string for search). -/
structure Filters where
  country_id : List Nat
  region_id : List Nat
  city_id : List Nat
  genre_id : List Nat
  fund_id : List Nat
  search : String
deriving DecidableEq

/-- `if param: filters.append(Column.in_(param))` - the membership filter is
applied only when the parameter list is non-empty. -/
def inFilter (l : List Nat) (x : Nat) : Bool :=
  l.isEmpty || l.contains x

/-- `~Song.education_genres.any()` : no education-association row mentions
this song. -/
def educationGenresEmpty (db : DB) (s : Song) : Bool :=
  db.songEducationGenres.all (fun p => p.1 != s.id)

/-- The two always-present predicates of every read query:
`Song.is_active` and `~Song.education_genres.any()`. -/
def songBase (db : DB) (s : Song) : Bool :=
  s.is_active && educationGenresEmpty db s

/-- Join through `Song.genres`: the association table contains the pair. -/
def songGenreLink (db : DB) (s : Song) (g : Genre) : Bool :=
  db.songGenres.contains (s.id, g.id)

/-- `Song.title.ilike(f"%{search}%")`, applied only when search is truthy:
case-insensitive substring match. -/
def titleSearch (search : String) (title : String) : Bool :=
  search.isEmpty || decide (search.toLower.data <:+: title.toLower.data)

/-! ## Cache layer (src/src/database/redis.py) -/

/-- Python truthiness of the optional key argument: None and 0 are falsy. -/
def argTruthy : Option Nat → Bool
  | none => false
  | some n => n != 0

/-- The lambda `cache_key` of redis.py line 13: CACHE_PREFIX, a colon, the
function name, and (only when the argument is truthy) a colon and the argument.
The configured CACHE_PREFIX (src/src/config.py, not under src/) is passed
as the parameter `pre`. -/
def cache_key (pre : String) (func : String) (arg : Option Nat) : String :=
  pre ++ ":" ++ func ++ (if argTruthy arg then ":" ++ toString (arg.getD 0) else "")

/-- The keyword arguments the cache decorator hands to the key builder.
Only the read endpoints of src/src/location/routers.py are cached with
`my_key_builder`; their possible parameters are the five ID lists, the
search string, and (for point lookups elsewhere in the repository) an id. -/
structure Kwargs where
  id : Option Nat
  country_id : List Nat
  region_id : List Nat
  city_id : List Nat
  genre_id : List Nat
  fund_id : List Nat
  search : String
deriving DecidableEq

/-- `my_key_builder(func, *args, **kwargs)`: reads only
`kwargs.get("kwargs").get("id")` and ignores every other parameter. -/
def my_key_builder (pre : String) (funcName : String) (kw : Kwargs) : String :=
  cache_key pre funcName kw.id

/-- A cache state: association list from key to cached payload. -/
abbrev Cache : Type := List (String × String)

/-- `await redis.delete(key)` : remove the exact key. -/
def redisDelete (key : String) (c : Cache) : Cache :=
  List.filter (fun kv => kv.1 != key) c

/-- `invalidate_cache(func, id_or_mail)` : delete the single key
`cache_key(func, id_or_mail)`. -/
def invalidate_cache (pre : String) (func : String) (idOrMail : Option Nat)
    (c : Cache) : Cache :=
  redisDelete (cache_key pre func idOrMail) c

/-- Modelled from the spec: the admin modules import `invalidate_cache_partial`
from src.database.redis, but that function is not present under src/ (only
its callers are).  Spec 4.5: invalidation "removes every cached entry whose
key begins with a given logical function name (all parameter variants)".
The key of a variant of function f begins with `cache_key pre f none`. -/
def invalidateCacheNames (pre : String) (funcs : List String) (c : Cache) : Cache :=
  List.filter (fun kv => !(funcs.any (fun f => (cache_key pre f none).isPrefixOf kv.1))) c

/-! ## Read endpoints (src/src/location/routers.py)

Each endpoint builds the list `filters = [Song.is_active, ~Song.education_genres.any()]`
plus one membership condition per supplied (truthy) parameter, and executes an
inner-join query.  The joined row sets are modelled as lists of row structures,
one row per tuple of the relational join; the grouped / selected outputs are
computed from them exactly as the SQL select clauses do. -/

/-- A generic HTTP-level result: 200 payload, 404 (NoResultFound handler), or
500 (the generic `except Exception` handler). -/
inductive Resp (α : Type) where
  | ok (val : α)
  | notFound
  | internalError
deriving DecidableEq

/-- A `{id, name, song_count}` facet list element. -/
structure FacetEntry where
  id : Nat
  name : String
  song_count : Nat
deriving DecidableEq

/-- Element of the regions facet list (RegionSchema). -/
structure RegionEntry where
  id : Nat
  name : String
  country_id : Nat
  song_count : Nat
deriving DecidableEq

/-- Element of the cities facet list (CitySchema). -/
structure CityEntry where
  id : Nat
  name : String
  song_count : Nat
  country_id : Nat
  region_id : Nat
deriving DecidableEq

/-- Element of the geotag list (FilterMapSchema). -/
structure GeoEntry where
  id : Nat
  city : String
  latitude : Int
  longitude : Int
  photo : String
  song_count : Nat
deriving DecidableEq

/-- `GROUP BY key ... ORDER BY le` with `count(distinct Song.id)`: one output
element per distinct key occurring among the rows, annotated with the number
of distinct song ids among the rows of that key.  (SQL groups by the key column;
primary keys are unique, so grouping by the row entity is the same.) -/
def groupCount {ρ κ : Type} [DecidableEq κ]
    (rows : List ρ) (key : ρ → κ) (sid : ρ → Nat) (k : κ) : Nat :=
  ((rows.filter (fun r => decide (key r = k))).map sid).dedup.length

/-- The ordered, grouped facet list itself. -/
def facetGroupsBy {ρ κ ε : Type} [DecidableEq ρ] [DecidableEq κ]
    (rows : List ρ) (key : ρ → κ) (sid : ρ → Nat)
    (le : κ → κ → Prop) [DecidableRel le] (mk : κ → Nat → ε) : List ε :=
  (((rows.map key).dedup).insertionSort le).map
    (fun k => mk k (groupCount rows key sid k))

/-- A joined row of the get_countries query. -/
structure CountryRow where
  co : Country
  re : Region
  ci : City
  s : Song
  g : Genre
deriving DecidableEq

/-- get_countries (lines 62-96): Country JOIN Region JOIN City JOIN Song JOIN
Song.genres, filtered by city_id / region_id / fund_id / genre_id. -/
def getCountriesRows (db : DB) (f : Filters) : List CountryRow :=
  db.countries.bind (fun co =>
  db.regions.bind (fun re =>
  db.cities.bind (fun ci =>
  db.songs.bind (fun s =>
  db.genres.bind (fun g =>
    if (re.country_id == co.id) && (ci.region_id == re.id) && (s.city_id == ci.id)
        && songGenreLink db s g && songBase db s
        && inFilter f.city_id ci.id && inFilter f.region_id ci.region_id
        && inFilter f.fund_id s.fund_id && inFilter f.genre_id g.id
    then [⟨co, re, ci, s, g⟩] else [])))))

/-- get_countries select/group: `Country.id, Country.name, count(distinct Song.id)`
grouped by country, ordered by country name. -/
def get_countries_result (db : DB) (f : Filters) : List FacetEntry :=
  facetGroupsBy (getCountriesRows db f) (fun r => r.co) (fun r => r.s.id)
    (fun a b => a.name ≤ b.name) (fun co cnt => ⟨co.id, co.name, cnt⟩)

/-- get_countries endpoint: empty result raises NoResultFound, handled as 404. -/
def get_countries (db : DB) (f : Filters) : Resp (List FacetEntry) :=
  if (get_countries_result db f).isEmpty then .notFound
  else .ok (get_countries_result db f)

/-- A joined row of the get_regions query (no Country in the FROM clause). -/
structure RegionRow where
  re : Region
  ci : City
  s : Song
  g : Genre
deriving DecidableEq

/-- get_regions (lines 131-155): Region JOIN City ON Region.id = City.region_id
JOIN Song JOIN Song.genres; country filter uses Region.country_id. -/
def getRegionsRows (db : DB) (f : Filters) : List RegionRow :=
  db.regions.bind (fun re =>
  db.cities.bind (fun ci =>
  db.songs.bind (fun s =>
  db.genres.bind (fun g =>
    if (ci.region_id == re.id) && (s.city_id == ci.id)
        && songGenreLink db s g && songBase db s
        && inFilter f.country_id re.country_id && inFilter f.city_id ci.id
        && inFilter f.genre_id g.id && inFilter f.fund_id s.fund_id
    then [⟨re, ci, s, g⟩] else []))))

/-- get_regions select/group, ordered by region name. -/
def get_regions_result (db : DB) (f : Filters) : List RegionEntry :=
  facetGroupsBy (getRegionsRows db f) (fun r => r.re) (fun r => r.s.id)
    (fun a b => a.name ≤ b.name) (fun re cnt => ⟨re.id, re.name, re.country_id, cnt⟩)

/-- get_regions endpoint. -/
def get_regions (db : DB) (f : Filters) : Resp (List RegionEntry) :=
  if (get_regions_result db f).isEmpty then .notFound
  else .ok (get_regions_result db f)

/-- A joined row of the get_cities query. -/
structure CityRow where
  ci : City
  s : Song
  g : Genre
deriving DecidableEq

/-- get_cities (lines 205-229): City JOIN Song ON City.id = Song.city_id JOIN
Song.genres; country / region filters use the City columns. -/
def getCitiesRows (db : DB) (f : Filters) : List CityRow :=
  db.cities.bind (fun ci =>
  db.songs.bind (fun s =>
  db.genres.bind (fun g =>
    if (s.city_id == ci.id)
        && songGenreLink db s g && songBase db s
        && inFilter f.country_id ci.country_id && inFilter f.region_id ci.region_id
        && inFilter f.genre_id g.id && inFilter f.fund_id s.fund_id
    then [⟨ci, s, g⟩] else [])))

/-- get_cities select/group, ordered by city name. -/
def get_cities_result (db : DB) (f : Filters) : List CityEntry :=
  facetGroupsBy (getCitiesRows db f) (fun r => r.ci) (fun r => r.s.id)
    (fun a b => a.name ≤ b.name)
    (fun ci cnt => ⟨ci.id, ci.name, cnt, ci.country_id, ci.region_id⟩)

/-- get_cities endpoint. -/
def get_cities (db : DB) (f : Filters) : Resp (List CityEntry) :=
  if (get_cities_result db f).isEmpty then .notFound
  else .ok (get_cities_result db f)

/-- A joined row of the get_genres query (joins Fund and Country as well). -/
structure GenreRow where
  g : Genre
  s : Song
  ci : City
  re : Region
  co : Country
  fu : Fund
deriving DecidableEq

/-- get_genres (lines 281-306): Genre JOIN Song (via Song.genres) JOIN City
JOIN Region JOIN Country ON City.country_id = Country.id JOIN Fund. -/
def getGenresRows (db : DB) (f : Filters) : List GenreRow :=
  db.genres.bind (fun g =>
  db.songs.bind (fun s =>
  db.cities.bind (fun ci =>
  db.regions.bind (fun re =>
  db.countries.bind (fun co =>
  db.funds.bind (fun fu =>
    if songGenreLink db s g && (s.city_id == ci.id) && (ci.region_id == re.id)
        && (ci.country_id == co.id) && (s.fund_id == fu.id) && songBase db s
        && inFilter f.country_id co.id && inFilter f.region_id re.id
        && inFilter f.city_id ci.id && inFilter f.fund_id s.fund_id
    then [⟨g, s, ci, re, co, fu⟩] else []))))))

/-- get_genres select/group, ordered by genre id. -/
def get_genres_result (db : DB) (f : Filters) : List FacetEntry :=
  facetGroupsBy (getGenresRows db f) (fun r => r.g) (fun r => r.s.id)
    (fun a b => a.id ≤ b.id) (fun g cnt => ⟨g.id, g.genre_name, cnt⟩)

/-- get_genres endpoint. -/
def get_genres (db : DB) (f : Filters) : Resp (List FacetEntry) :=
  if (get_genres_result db f).isEmpty then .notFound
  else .ok (get_genres_result db f)

/-- A joined row of the get_funds query. -/
structure FundRow where
  fu : Fund
  s : Song
  ci : City
  re : Region
  co : Country
  g : Genre
deriving DecidableEq

/-- get_funds (lines 354-375): Fund JOIN Song ON Fund.id = Song.fund_id JOIN
City JOIN Region JOIN Country ON City.country_id = Country.id JOIN Song.genres. -/
def getFundsRows (db : DB) (f : Filters) : List FundRow :=
  db.funds.bind (fun fu =>
  db.songs.bind (fun s =>
  db.cities.bind (fun ci =>
  db.regions.bind (fun re =>
  db.countries.bind (fun co =>
  db.genres.bind (fun g =>
    if (s.fund_id == fu.id) && (s.city_id == ci.id) && (ci.region_id == re.id)
        && (ci.country_id == co.id) && songGenreLink db s g && songBase db s
        && inFilter f.country_id co.id && inFilter f.region_id re.id
        && inFilter f.city_id ci.id && inFilter f.genre_id g.id
    then [⟨fu, s, ci, re, co, g⟩] else []))))))

/-- get_funds select/group, ordered by fund id. -/
def get_funds_result (db : DB) (f : Filters) : List FacetEntry :=
  facetGroupsBy (getFundsRows db f) (fun r => r.fu) (fun r => r.s.id)
    (fun a b => a.id ≤ b.id) (fun fu cnt => ⟨fu.id, fu.title, cnt⟩)

/-- get_funds endpoint. -/
def get_funds (db : DB) (f : Filters) : Resp (List FacetEntry) :=
  if (get_funds_result db f).isEmpty then .notFound
  else .ok (get_funds_result db f)

/-- A joined row of the filter_songs / filter_song_geotags queries:
Song JOIN City JOIN Region JOIN Country JOIN Song.genres. -/
structure SongRow where
  s : Song
  ci : City
  re : Region
  co : Country
  g : Genre
deriving DecidableEq

/-- filter_songs (lines 429-453): the joined rows before the select clause.
No DISTINCT anywhere in the query. -/
def filterSongsRows (db : DB) (f : Filters) : List SongRow :=
  db.songs.bind (fun s =>
  db.cities.bind (fun ci =>
  db.regions.bind (fun re =>
  db.countries.bind (fun co =>
  db.genres.bind (fun g =>
    if (s.city_id == ci.id) && (ci.region_id == re.id) && (re.country_id == co.id)
        && songGenreLink db s g && songBase db s
        && inFilter f.country_id co.id && inFilter f.region_id re.id
        && inFilter f.city_id ci.id && inFilter f.fund_id s.fund_id
        && inFilter f.genre_id g.id && titleSearch f.search s.title
    then [⟨s, ci, re, co, g⟩] else [])))))

/-- `select(Song) ... order_by(desc(Song.id))`: one Song per joined row. -/
def filterSongsSelected (db : DB) (f : Filters) : List Song :=
  ((filterSongsRows db f).map (fun r => r.s)).insertionSort (fun a b => b.id ≤ a.id)

/-- The page envelope returned by the fastapi_pagination `paginate` call:
a slice of the query rows plus the total row count of the query. -/
structure Page where
  items : List Song
  total : Nat
deriving DecidableEq

/-- The paginate contract (external collaborator): items = rows[offset : offset+limit],
total = number of rows of the query. -/
def paginateRows (rows : List Song) (limit offset : Nat) : Page :=
  ⟨(rows.drop offset).take limit, rows.length⟩

/-- filter_songs endpoint: paginate, and 404 when the page has no items. -/
def filter_songs (db : DB) (f : Filters) (limit offset : Nat) : Resp Page :=
  if ((paginateRows (filterSongsSelected db f) limit offset).items).isEmpty
  then .notFound
  else .ok (paginateRows (filterSongsSelected db f) limit offset)

/-- filter_song_geotags (lines 504-537): same joined rows as filter_songs. -/
def filterSongGeotagsRows (db : DB) (f : Filters) : List SongRow :=
  db.cities.bind (fun ci =>
  db.songs.bind (fun s =>
  db.regions.bind (fun re =>
  db.countries.bind (fun co =>
  db.genres.bind (fun g =>
    if (s.city_id == ci.id) && (ci.region_id == re.id) && (re.country_id == co.id)
        && songGenreLink db s g && songBase db s
        && inFilter f.country_id co.id && inFilter f.region_id re.id
        && inFilter f.city_id ci.id && inFilter f.fund_id s.fund_id
        && inFilter f.genre_id g.id && titleSearch f.search s.title
    then [⟨s, ci, re, co, g⟩] else [])))))

/-- geotag select: grouped by (City.id, Region.name), ordered by city id,
`count(distinct Song.id)` per group. -/
def filter_song_geotags_result (db : DB) (f : Filters) : List GeoEntry :=
  facetGroupsBy (filterSongGeotagsRows db f) (fun r => (r.ci, r.re.name)) (fun r => r.s.id)
    (fun a b => a.1.id ≤ b.1.id)
    (fun k cnt => ⟨k.1.id, k.1.name ++ ", " ++ k.2, k.1.latitude, k.1.longitude, k.1.photo, cnt⟩)

/-- filter_song_geotags endpoint. -/
def filter_song_geotags (db : DB) (f : Filters) : Resp (List GeoEntry) :=
  if (filter_song_geotags_result db f).isEmpty then .notFound
  else .ok (filter_song_geotags_result db f)

/-- `session.get(Song, id)`: primary-key lookup. -/
def findSong (db : DB) (i : Nat) : Option Song :=
  db.songs.find? (fun s => s.id == i)

/-- get_song_on_map_by_id (lines 565-582).  The guard
`if not all([record, record.is_active, not record.education_genres])` builds
its list eagerly, so when `session.get` returned None the attribute access
`record.is_active` raises AttributeError, which is caught by the generic
`except Exception` handler and surfaced as a 500 internal error, not as the
NoResultFound / 404 path. -/
def get_song_on_map_by_id (db : DB) (i : Nat) : Resp Song :=
  match findSong db i with
  | none => .internalError
  | some r => if r.is_active && educationGenresEmpty db r then .ok r else .notFound

/-! ## Admin taxonomy guard (src/src/admin/song.py)

`GenreAdmin.delete_model` / `FundAdmin.delete_model` query the entity by pk,
and when its `songs` relationship is non-empty return an error-message dict
without deleting (and without running the after-delete hook); otherwise the
base `delete_model` deletes the row, after which the framework runs the
`after_model_delete` hook. -/

/-- The outcome of an admin delete request: a conflict message (nothing
changed, no invalidation issued), or the updated database together with the
list of logical function names passed to cache invalidation by the
after-delete hook. -/
inductive DeleteResult where
  | conflict (message : String)
  | deleted (db : DB) (invalidated : List String)
deriving DecidableEq

/-- Database state after a delete request (a conflict leaves it unchanged). -/
def dbAfter (db : DB) : DeleteResult → DB
  | .conflict _ => db
  | .deleted db2 _ => db2

/-- The function names whose cache invalidation was requested. -/
def invalidatedOf : DeleteResult → List String
  | .conflict _ => []
  | .deleted _ fs => fs

/-- The Python join: `sep.join(xs)`. -/
def pyJoin (sep : String) : List String → String
  | [] => ""
  | [t] => t
  | t :: ts => t ++ sep ++ pyJoin sep ts

/-- Modelled from the spec: `str(song)` for the song model (src/src/song/models.py
is not under src/); the conflict message lists "the titles of blocking Records". -/
def songStr (s : Song) : String := s.title

/-- Modelled from the spec: `str(genre)` displays the genre, i.e. its name. -/
def genreStr (g : Genre) : String := g.genre_name

/-- Modelled from the spec: `str(fund)` displays the fund, i.e. its title. -/
def fundStr (fu : Fund) : String := fu.title

/-- The `Genre.songs` relationship: all songs linked through
song_genre_association, regardless of active / education status. -/
def genreAssocSongs (db : DB) (g : Genre) : List Song :=
  db.songs.filter (fun s => db.songGenres.contains (s.id, g.id))

/-- The `Fund.songs` relationship. -/
def fundAssocSongs (db : DB) (fu : Fund) : List Song :=
  db.songs.filter (fun s => s.fund_id == fu.id)

/-- Lines 101-102: the conflict message for a blocked genre deletion. -/
def genreBlockMessage (g : Genre) (songs : List Song) : String :=
  "Неможливо видалити жанр <b>" ++ genreStr g ++ "</b>" ++
    ", оскільки з ним пов\u0027язані пісні: <b>" ++
    pyJoin ", " (songs.map songStr) ++ "</b>."

/-- Lines 133-134: the conflict message for a blocked fund deletion. -/
def fundBlockMessage (fu : Fund) (songs : List Song) : String :=
  "Неможливо видалити фонд <b>" ++ fundStr fu ++ "</b>" ++
    ", оскільки з ним пов\u0027язані пісні: <b>" ++
    pyJoin ", " (songs.map songStr) ++ "</b>."

/-- Lines 96-100: `records = select(Genre).filter_by(id=pk)`; when records is
non-empty and `records[0].songs` is non-empty, the blocking data
(records[0], records[0].songs). -/
def genreConflictData (db : DB) (pk : Nat) : Option (Genre × List Song) :=
  match db.genres.filter (fun g => g.id == pk) with
  | [] => none
  | g :: _ =>
    let songs := genreAssocSongs db g
    if songs.isEmpty then none else some (g, songs)

/-- The fund counterpart (lines 128-132). -/
def fundConflictData (db : DB) (pk : Nat) : Option (Fund × List Song) :=
  match db.funds.filter (fun fu => fu.id == pk) with
  | [] => none
  | fu :: _ =>
    let songs := fundAssocSongs db fu
    if songs.isEmpty then none else some (fu, songs)

/-- The framework delete: remove the genre row with the given pk. -/
def removeGenre (db : DB) (pk : Nat) : DB :=
  ⟨db.countries, db.regions, db.cities, db.genres.filter (fun g => g.id != pk),
    db.funds, db.songs, db.songGenres, db.songEducationGenres⟩

/-- The framework delete: remove the fund row with the given pk. -/
def removeFund (db : DB) (pk : Nat) : DB :=
  ⟨db.countries, db.regions, db.cities, db.genres,
    db.funds.filter (fun fu => fu.id != pk), db.songs, db.songGenres,
    db.songEducationGenres⟩

/-- `GenreAdmin.delete_model` (lines 95-104) + `GenreAdmin.after_model_delete`
(lines 91-93): a blocked delete returns the message; a successful delete
removes the row and the hook requests invalidation of exactly
`["filter_songs"]`. -/
def genre_delete_model (db : DB) (pk : Nat) : DeleteResult :=
  match genreConflictData db pk with
  | some (g, songs) => .conflict (genreBlockMessage g songs)
  | none => .deleted (removeGenre db pk) [ "filter_songs"]

/-- `FundAdmin.delete_model` (lines 127-136).  FundAdmin declares no
`after_model_delete` hook; the inherited base hook (src/src/admin/commons/base.py,
not under src/) performs no cache invalidation - every admin view that
invalidates does so through an explicit override (GenreAdmin, SongAdmin) -
so a successful fund deletion requests no invalidation. -/
def fund_delete_model (db : DB) (pk : Nat) : DeleteResult :=
  match fundConflictData db pk with
  | some (fu, songs) => .conflict (fundBlockMessage fu songs)
  | none => .deleted (removeFund db pk) []

/-- `sub` occurs inside `m` (substring occurrence, on the character lists). -/
def mentions (m sub : String) : Prop :=
  sub.data <:+: m.data

/-! ## Spec-side definitions (for the refinement claims)

These definitions follow the words of the specification (sections 4.1 and 4.2),
not the source, and exist to be compared with the code-side definitions
above. -/

/-- The five facet dimensions of spec 4.2. -/
inductive Dim where
  | country
  | region
  | city
  | genre
  | fund
deriving DecidableEq

/-- The `{id, name, song_count}` projection of the output of each facet endpoint. -/
def facetEntries : Dim → DB → Filters → List FacetEntry
  | .country, db, f => get_countries_result db f
  | .region, db, f => (get_regions_result db f).map (fun e => ⟨e.id, e.name, e.song_count⟩)
  | .city, db, f => (get_cities_result db f).map (fun e => ⟨e.id, e.name, e.song_count⟩)
  | .genre, db, f => get_genres_result db f
  | .fund, db, f => get_funds_result db f

/-- The facet endpoint for dimension d answered with the 404 no-data signal. -/
def facetIsNotFound : Dim → DB → Filters → Prop
  | .country, db, f => get_countries db f = .notFound
  | .region, db, f => get_regions db f = .notFound
  | .city, db, f => get_cities db f = .notFound
  | .genre, db, f => get_genres db f = .notFound
  | .fund, db, f => get_funds db f = .notFound

/-- The (id, displayed name) of every value of a facet dimension. -/
def facetValues : Dim → DB → List (Nat × String)
  | .country, db => db.countries.map (fun c => (c.id, c.name))
  | .region, db => db.regions.map (fun r => (r.id, r.name))
  | .city, db => db.cities.map (fun c => (c.id, c.name))
  | .genre, db => db.genres.map (fun g => (g.id, g.genre_name))
  | .fund, db => db.funds.map (fun fu => (fu.id, fu.title))

/-- Spec 4.2: the filter set F for dimension D is built excluding the own
filter parameter (and the facet endpoints accept no search parameter). -/
def facetParams : Dim → Filters → Filters
  | .country, f => ⟨[], f.region_id, f.city_id, f.genre_id, f.fund_id, ""⟩
  | .region, f => ⟨f.country_id, [], f.city_id, f.genre_id, f.fund_id, ""⟩
  | .city, f => ⟨f.country_id, f.region_id, [], f.genre_id, f.fund_id, ""⟩
  | .genre, f => ⟨f.country_id, f.region_id, f.city_id, [], f.fund_id, ""⟩
  | .fund, f => ⟨f.country_id, f.region_id, f.city_id, f.genre_id, [], ""⟩

/-- Spec 4.1, written from the words of the spec: the composed conjunctive
predicate.  Always `is_active` and `education_genres is empty`; each supplied
ID list constrains the corresponding dimension (through the city of the record and
its region for the location chain); `search` constrains the title by
case-insensitive substring; an empty list / string is no constraint. -/
def specMatches (db : DB) (f : Filters) (s : Song) : Bool :=
  s.is_active
  && db.songEducationGenres.all (fun p => p.1 != s.id)
  && (f.country_id.isEmpty
      || db.cities.any (fun ci => ci.id == s.city_id
          && db.regions.any (fun re => re.id == ci.region_id
              && f.country_id.contains re.country_id)))
  && (f.region_id.isEmpty
      || db.cities.any (fun ci => ci.id == s.city_id
          && f.region_id.contains ci.region_id))
  && (f.city_id.isEmpty || f.city_id.contains s.city_id)
  && (f.genre_id.isEmpty
      || f.genre_id.any (fun gid => db.songGenres.contains (s.id, gid)))
  && (f.fund_id.isEmpty || f.fund_id.contains s.fund_id)
  && titleSearch f.search s.title

/-- Spec 4.2, written from the words of the spec: the record belongs to the given
facet value (by id). -/
def specBelongs (db : DB) (d : Dim) (v : Nat) (s : Song) : Bool :=
  match d with
  | .country => db.cities.any (fun ci => ci.id == s.city_id
      && db.regions.any (fun re => re.id == ci.region_id && re.country_id == v))
  | .region => db.cities.any (fun ci => ci.id == s.city_id && ci.region_id == v)
  | .city => s.city_id == v
  | .genre => db.songGenres.contains (s.id, v)
  | .fund => s.fund_id == v

/-- Spec 4.2: the number of distinct Records satisfying F and belonging to
the facet value v. -/
def specCount (db : DB) (d : Dim) (f : Filters) (v : Nat) : Nat :=
  ((db.songs.filter (fun s => specMatches db f s && specBelongs db d v s)).map
    (fun s => s.id)).dedup.length

/-- The integrity invariants of the database, all stated in the data
model of spec section 3 and maintained by the admin write surface: the location
chain is total and the denormalized City.country_id is consistent with it;
songs reference an existing city and fund; genre links reference existing
genres; a record outside the education sub-catalog carries at least one
public genre (the admin form requires genres or education_genres); primary
keys are unique. -/
structure DBInv (db : DB) : Prop where
  cityRegion : ∀ ci ∈ db.cities, ∃ re ∈ db.regions, re.id = ci.region_id
  regionCountry : ∀ re ∈ db.regions, ∃ co ∈ db.countries, co.id = re.country_id
  cityCountry : ∀ ci ∈ db.cities, ∀ re ∈ db.regions, re.id = ci.region_id →
    ci.country_id = re.country_id
  songCity : ∀ s ∈ db.songs, ∃ ci ∈ db.cities, ci.id = s.city_id
  songFund : ∀ s ∈ db.songs, ∃ fu ∈ db.funds, fu.id = s.fund_id
  linkGenre : ∀ p ∈ db.songGenres, ∃ g ∈ db.genres, g.id = p.2
  publicHasGenre : ∀ s ∈ db.songs, educationGenresEmpty db s = true →
    ∃ p ∈ db.songGenres, p.1 = s.id
  countryIds : (db.countries.map (fun c => c.id)).Nodup
  regionIds : (db.regions.map (fun r => r.id)).Nodup
  cityIds : (db.cities.map (fun c => c.id)).Nodup
  genreIds : (db.genres.map (fun g => g.id)).Nodup
  fundIds : (db.funds.map (fun x => x.id)).Nodup

/-! ## Concrete fixtures used by witnesses and counterexamples -/

/-- The empty filter combination. -/
def f0 : Filters := ⟨[], [], [], [], [], ""⟩

def country1 : Country := ⟨1, "Ukraine"⟩

def region1 : Region := ⟨1, "Lvivska", 1⟩

def city1 : City := ⟨10, "Lviv", 1, 1, 49, 24, "photo"⟩

def genre1 : Genre := ⟨1, "Folk"⟩

def genre2 : Genre := ⟨2, "Rock"⟩

def fund1 : Fund := ⟨1, "FundA"⟩

def song1 : Song := ⟨1, "Oi u luzi", true, 10, 1⟩

/-- One active public song with one genre, fully consistent hierarchy. -/
def db1 : DB := ⟨[country1], [region1], [city1], [genre1], [fund1], [song1],
  [(1, 1)], []⟩

/-- Like db1, but the song carries two public genres. -/
def db2 : DB := ⟨[country1], [region1], [city1], [genre1, genre2], [fund1],
  [song1], [(1, 1), (1, 2)], []⟩

/-- Like db1, but with an additional genre that has no songs. -/
def dbTwoGenres : DB := ⟨[country1], [region1], [city1], [genre1, genre2],
  [fund1], [song1], [(1, 1)], []⟩

/-- An active, non-education song with an empty public genre set. -/
def dbNoGenre : DB := ⟨[country1], [region1], [city1], [genre1], [fund1],
  [song1], [], []⟩

/-- The empty database. -/
def dbEmpty : DB := ⟨[], [], [], [], [], [], [], []⟩

/-- A database whose single genre blocks deletion with n associated songs. -/
def manySongsDB (n : Nat) : DB :=
  ⟨[country1], [region1], [city1], [genre1], [fund1],
    (List.range n).map (fun i => ⟨i + 1, "T" ++ toString (i + 1), true, 10, 1⟩),
    (List.range n).map (fun i => (i + 1, 1)), []⟩

def fund2 : Fund := ⟨2, "FundB"⟩

/-- Like db1, but with an additional fund that has no songs. -/
def dbSpareFund : DB := ⟨[country1], [region1], [city1], [genre1],
  [fund1, fund2], [song1], [(1, 1)], []⟩

/-- Keyword arguments of a get_countries request with city filter [1]. -/
def kwA : Kwargs := ⟨none, [], [], [1], [], [], ""⟩

/-- Keyword arguments of a get_countries request with city filter [2]. -/
def kwB : Kwargs := ⟨none, [], [], [2], [], [], ""⟩

/-- The single joined row of get_countries over db1. -/
def row1 : CountryRow := ⟨country1, region1, city1, song1, genre1⟩

/-- The cap property the spec claims of the conflict result: some fixed bound
caps the number of blocking Records whose titles a blocked genre deletion
enumerates. -/
def titlesCapped : Prop :=
  ∃ cap : Nat, ∀ (db : DB) (pk : Nat) (g : Genre) (songs : List Song),
    genreConflictData db pk = some (g, songs) → songs.length ≤ cap

/-! ## Helper lemmas -/

theorem mem_ite_singleton {α : Type} {c : Bool} {a x : α} :
    (x ∈ if c = true then [a] else ([] : List α)) ↔ c = true ∧ x = a := by
  cases c <;> simp

theorem mem_ite_singleton_prop {α : Type} {c : Prop} [Decidable c] {a x : α} :
    (x ∈ if c then [a] else ([] : List α)) ↔ c ∧ x = a := by
  by_cases h : c
  · simp [h]
  · simp [h]

theorem dedup_length_eq_of_mem_iff {l₁ l₂ : List Nat} (h : ∀ i, i ∈ l₁ ↔ i ∈ l₂) :
    l₁.dedup.length = l₂.dedup.length := by
  rw [← List.card_toFinset, ← List.card_toFinset]
  congr 1
  ext i
  simpa using h i

theorem dedup_length_ne_zero_iff {l : List Nat} : l.dedup.length ≠ 0 ↔ l ≠ [] := by
  rw [Ne, List.length_eq_zero, List.dedup_eq_nil]

theorem mem_getCountriesRows {db : DB} {f : Filters} {r : CountryRow} :
    r ∈ getCountriesRows db f ↔
      r.co ∈ db.countries ∧ r.re ∈ db.regions ∧ r.ci ∈ db.cities ∧ r.s ∈ db.songs
      ∧ r.g ∈ db.genres
      ∧ r.re.country_id = r.co.id ∧ r.ci.region_id = r.re.id ∧ r.s.city_id = r.ci.id
      ∧ songGenreLink db r.s r.g = true ∧ songBase db r.s = true
      ∧ inFilter f.city_id r.ci.id = true ∧ inFilter f.region_id r.ci.region_id = true
      ∧ inFilter f.fund_id r.s.fund_id = true ∧ inFilter f.genre_id r.g.id = true := by
  obtain ⟨co, re, ci, s, g⟩ := r
  unfold getCountriesRows
  simp only [List.mem_bind, mem_ite_singleton, Bool.and_eq_true, beq_iff_eq,
    CountryRow.mk.injEq]
  aesop

theorem mem_getRegionsRows {db : DB} {f : Filters} {r : RegionRow} :
    r ∈ getRegionsRows db f ↔
      r.re ∈ db.regions ∧ r.ci ∈ db.cities ∧ r.s ∈ db.songs ∧ r.g ∈ db.genres
      ∧ r.ci.region_id = r.re.id ∧ r.s.city_id = r.ci.id
      ∧ songGenreLink db r.s r.g = true ∧ songBase db r.s = true
      ∧ inFilter f.country_id r.re.country_id = true ∧ inFilter f.city_id r.ci.id = true
      ∧ inFilter f.genre_id r.g.id = true ∧ inFilter f.fund_id r.s.fund_id = true := by
  obtain ⟨re, ci, s, g⟩ := r
  unfold getRegionsRows
  simp only [List.mem_bind, mem_ite_singleton, Bool.and_eq_true, beq_iff_eq,
    RegionRow.mk.injEq]
  aesop

theorem mem_getCitiesRows {db : DB} {f : Filters} {r : CityRow} :
    r ∈ getCitiesRows db f ↔
      r.ci ∈ db.cities ∧ r.s ∈ db.songs ∧ r.g ∈ db.genres
      ∧ r.s.city_id = r.ci.id
      ∧ songGenreLink db r.s r.g = true ∧ songBase db r.s = true
      ∧ inFilter f.country_id r.ci.country_id = true
      ∧ inFilter f.region_id r.ci.region_id = true
      ∧ inFilter f.genre_id r.g.id = true ∧ inFilter f.fund_id r.s.fund_id = true := by
  obtain ⟨ci, s, g⟩ := r
  unfold getCitiesRows
  simp only [List.mem_bind, mem_ite_singleton, Bool.and_eq_true, beq_iff_eq,
    CityRow.mk.injEq]
  aesop

theorem mem_getGenresRows {db : DB} {f : Filters} {r : GenreRow} :
    r ∈ getGenresRows db f ↔
      r.g ∈ db.genres ∧ r.s ∈ db.songs ∧ r.ci ∈ db.cities ∧ r.re ∈ db.regions
      ∧ r.co ∈ db.countries ∧ r.fu ∈ db.funds
      ∧ songGenreLink db r.s r.g = true
      ∧ r.s.city_id = r.ci.id ∧ r.ci.region_id = r.re.id ∧ r.ci.country_id = r.co.id
      ∧ r.s.fund_id = r.fu.id ∧ songBase db r.s = true
      ∧ inFilter f.country_id r.co.id = true ∧ inFilter f.region_id r.re.id = true
      ∧ inFilter f.city_id r.ci.id = true ∧ inFilter f.fund_id r.s.fund_id = true := by
  obtain ⟨g, s, ci, re, co, fu⟩ := r
  unfold getGenresRows
  simp only [List.mem_bind, mem_ite_singleton, mem_ite_singleton_prop, Bool.and_eq_true,
    beq_iff_eq, GenreRow.mk.injEq]
  constructor
  · rintro ⟨a, ha, b, hb, c, hc, d, hd, e, he, x, hx, hcond, rfl, rfl, rfl, rfl, rfl, rfl⟩
    obtain ⟨⟨⟨⟨⟨⟨⟨⟨⟨h1, h2⟩, h3⟩, h4⟩, h5⟩, h6⟩, h7⟩, h8⟩, h9⟩, h10⟩ := hcond
    exact ⟨ha, hb, hc, hd, he, hx, h1, h2, h3, h4, h5, h6, h7, h8, h9, h10⟩
  · rintro ⟨h1, h2, h3, h4, h5, h6, hrest⟩
    refine ⟨_, h1, _, h2, _, h3, _, h4, _, h5, _, h6, ?_, rfl, rfl, rfl, rfl, rfl, rfl⟩
    and_intros <;> tauto

theorem mem_getFundsRows {db : DB} {f : Filters} {r : FundRow} :
    r ∈ getFundsRows db f ↔
      r.fu ∈ db.funds ∧ r.s ∈ db.songs ∧ r.ci ∈ db.cities ∧ r.re ∈ db.regions
      ∧ r.co ∈ db.countries ∧ r.g ∈ db.genres
      ∧ r.s.fund_id = r.fu.id
      ∧ r.s.city_id = r.ci.id ∧ r.ci.region_id = r.re.id ∧ r.ci.country_id = r.co.id
      ∧ songGenreLink db r.s r.g = true ∧ songBase db r.s = true
      ∧ inFilter f.country_id r.co.id = true ∧ inFilter f.region_id r.re.id = true
      ∧ inFilter f.city_id r.ci.id = true ∧ inFilter f.genre_id r.g.id = true := by
  obtain ⟨fu, s, ci, re, co, g⟩ := r
  unfold getFundsRows
  simp only [List.mem_bind, mem_ite_singleton, mem_ite_singleton_prop, Bool.and_eq_true,
    beq_iff_eq, FundRow.mk.injEq]
  constructor
  · rintro ⟨a, ha, b, hb, c, hc, d, hd, e, he, x, hx, hcond, rfl, rfl, rfl, rfl, rfl, rfl⟩
    obtain ⟨⟨⟨⟨⟨⟨⟨⟨⟨h1, h2⟩, h3⟩, h4⟩, h5⟩, h6⟩, h7⟩, h8⟩, h9⟩, h10⟩ := hcond
    exact ⟨ha, hb, hc, hd, he, hx, h1, h2, h3, h4, h5, h6, h7, h8, h9, h10⟩
  · rintro ⟨h1, h2, h3, h4, h5, h6, hrest⟩
    refine ⟨_, h1, _, h2, _, h3, _, h4, _, h5, _, h6, ?_, rfl, rfl, rfl, rfl, rfl, rfl⟩
    and_intros <;> tauto

theorem mem_filterSongsRows {db : DB} {f : Filters} {r : SongRow} :
    r ∈ filterSongsRows db f ↔
      r.s ∈ db.songs ∧ r.ci ∈ db.cities ∧ r.re ∈ db.regions ∧ r.co ∈ db.countries
      ∧ r.g ∈ db.genres
      ∧ r.s.city_id = r.ci.id ∧ r.ci.region_id = r.re.id ∧ r.re.country_id = r.co.id
      ∧ songGenreLink db r.s r.g = true ∧ songBase db r.s = true
      ∧ inFilter f.country_id r.co.id = true ∧ inFilter f.region_id r.re.id = true
      ∧ inFilter f.city_id r.ci.id = true ∧ inFilter f.fund_id r.s.fund_id = true
      ∧ inFilter f.genre_id r.g.id = true ∧ titleSearch f.search r.s.title = true := by
  obtain ⟨s, ci, re, co, g⟩ := r
  unfold filterSongsRows
  simp only [List.mem_bind, mem_ite_singleton, Bool.and_eq_true, beq_iff_eq,
    SongRow.mk.injEq]
  aesop

theorem mem_filterSongGeotagsRows {db : DB} {f : Filters} {r : SongRow} :
    r ∈ filterSongGeotagsRows db f ↔
      r.s ∈ db.songs ∧ r.ci ∈ db.cities ∧ r.re ∈ db.regions ∧ r.co ∈ db.countries
      ∧ r.g ∈ db.genres
      ∧ r.s.city_id = r.ci.id ∧ r.ci.region_id = r.re.id ∧ r.re.country_id = r.co.id
      ∧ songGenreLink db r.s r.g = true ∧ songBase db r.s = true
      ∧ inFilter f.country_id r.co.id = true ∧ inFilter f.region_id r.re.id = true
      ∧ inFilter f.city_id r.ci.id = true ∧ inFilter f.fund_id r.s.fund_id = true
      ∧ inFilter f.genre_id r.g.id = true ∧ titleSearch f.search r.s.title = true := by
  obtain ⟨s, ci, re, co, g⟩ := r
  unfold filterSongGeotagsRows
  simp only [List.mem_bind, mem_ite_singleton, Bool.and_eq_true, beq_iff_eq,
    SongRow.mk.injEq]
  aesop

theorem inFilter_iff {l : List Nat} {x : Nat} :
    inFilter l x = true ↔ l = [] ∨ x ∈ l := by
  simp [inFilter, List.isEmpty_iff]

theorem songBase_iff {db : DB} {s : Song} :
    songBase db s = true ↔ s.is_active = true ∧ educationGenresEmpty db s = true := by
  simp [songBase]

theorem songGenreLink_iff {db : DB} {s : Song} {g : Genre} :
    songGenreLink db s g = true ↔ (s.id, g.id) ∈ db.songGenres := by
  simp [songGenreLink]

theorem specMatches_iff {db : DB} {f : Filters} {s : Song} :
    specMatches db f s = true ↔
      s.is_active = true ∧ educationGenresEmpty db s = true
      ∧ (f.country_id = [] ∨ ∃ ci ∈ db.cities, ci.id = s.city_id
          ∧ ∃ re ∈ db.regions, re.id = ci.region_id ∧ re.country_id ∈ f.country_id)
      ∧ (f.region_id = [] ∨ ∃ ci ∈ db.cities, ci.id = s.city_id
          ∧ ci.region_id ∈ f.region_id)
      ∧ (f.city_id = [] ∨ s.city_id ∈ f.city_id)
      ∧ (f.genre_id = [] ∨ ∃ gid ∈ f.genre_id, (s.id, gid) ∈ db.songGenres)
      ∧ (f.fund_id = [] ∨ s.fund_id ∈ f.fund_id)
      ∧ titleSearch f.search s.title = true := by
  unfold specMatches educationGenresEmpty
  simp [List.isEmpty_iff, List.any_eq_true, and_assoc]

theorem specBelongs_country_iff {db : DB} {v : Nat} {s : Song} :
    specBelongs db .country v s = true ↔
      ∃ ci ∈ db.cities, ci.id = s.city_id
        ∧ ∃ re ∈ db.regions, re.id = ci.region_id ∧ re.country_id = v := by
  simp [specBelongs, List.any_eq_true, and_assoc]

theorem specBelongs_region_iff {db : DB} {v : Nat} {s : Song} :
    specBelongs db .region v s = true ↔
      ∃ ci ∈ db.cities, ci.id = s.city_id ∧ ci.region_id = v := by
  simp [specBelongs, List.any_eq_true, and_assoc]

theorem specBelongs_city_iff {db : DB} {v : Nat} {s : Song} :
    specBelongs db .city v s = true ↔ s.city_id = v := by
  simp [specBelongs]

theorem specBelongs_genre_iff {db : DB} {v : Nat} {s : Song} :
    specBelongs db .genre v s = true ↔ (s.id, v) ∈ db.songGenres := by
  simp [specBelongs]

theorem specBelongs_fund_iff {db : DB} {v : Nat} {s : Song} :
    specBelongs db .fund v s = true ↔ s.fund_id = v := by
  simp [specBelongs]

theorem mem_facetGroupsBy {ρ κ : Type} [DecidableEq ρ] [DecidableEq κ]
    {rows : List ρ} {key : ρ → κ} {sid : ρ → Nat}
    {le : κ → κ → Prop} [DecidableRel le] {keyId : κ → Nat} {keyName : κ → String}
    {e : FacetEntry} :
    e ∈ facetGroupsBy rows key sid le (fun k c => ⟨keyId k, keyName k, c⟩) ↔
      ∃ k, k ∈ rows.map key ∧ e = ⟨keyId k, keyName k, groupCount rows key sid k⟩ := by
  unfold facetGroupsBy
  rw [List.mem_map]
  constructor
  · rintro ⟨k, hk, rfl⟩
    exact ⟨k, List.mem_dedup.1 ((List.perm_insertionSort le _).mem_iff.1 hk), rfl⟩
  · rintro ⟨k, hk, rfl⟩
    exact ⟨k, (List.perm_insertionSort le _).mem_iff.2 (List.mem_dedup.2 hk), rfl⟩

theorem groupCount_ne_zero {ρ κ : Type} [DecidableEq κ]
    {rows : List ρ} {key : ρ → κ} {sid : ρ → Nat} {k : κ}
    (hk : k ∈ rows.map key) : groupCount rows key sid k ≠ 0 := by
  unfold groupCount
  rw [dedup_length_ne_zero_iff]
  rcases List.mem_map.1 hk with ⟨r, hr, rfl⟩
  intro hnil
  have hmem : sid r ∈ (rows.filter (fun r2 => decide (key r2 = key r))).map sid :=
    List.mem_map_of_mem _ (List.mem_filter.2 ⟨hr, by simp⟩)
  rw [hnil] at hmem
  exact absurd hmem (List.not_mem_nil _)

theorem facetGroupsBy_eq_nil {ρ κ : Type} [DecidableEq ρ] [DecidableEq κ]
    {rows : List ρ} {key : ρ → κ} {sid : ρ → Nat}
    {le : κ → κ → Prop} [DecidableRel le] {keyId : κ → Nat} {keyName : κ → String} :
    facetGroupsBy rows key sid le (fun k c => (⟨keyId k, keyName k, c⟩ : FacetEntry)) = []
      ↔ rows = [] := by
  unfold facetGroupsBy
  rw [List.map_eq_nil]
  constructor
  · intro h
    have hperm := List.perm_insertionSort le ((rows.map key).dedup)
    rw [h] at hperm
    have hd : (rows.map key).dedup = [] := hperm.symm.eq_nil
    rw [List.dedup_eq_nil, List.map_eq_nil] at hd
    exact hd
  · intro h
    subst h
    simp [List.insertionSort]

theorem facet_core {ρ κ : Type} [DecidableEq ρ] [DecidableEq κ]
    (rows : List ρ) (key : ρ → κ) (sid : ρ → Nat)
    (le : κ → κ → Prop) [DecidableRel le] (keyId : κ → Nat) (keyName : κ → String)
    (values : List κ) (countList : Nat → List Nat)
    (hkey : ∀ r ∈ rows, key r ∈ values)
    (hchar : ∀ k ∈ values, ∀ i : Nat,
      (∃ r ∈ rows, key r = k ∧ sid r = i) ↔ i ∈ countList (keyId k)) :
    (∀ e ∈ facetGroupsBy rows key sid le (fun k c => (⟨keyId k, keyName k, c⟩ : FacetEntry)),
        (∃ k ∈ values, keyId k = e.id ∧ keyName k = e.name)
        ∧ e.song_count = (countList e.id).dedup.length ∧ e.song_count ≠ 0)
    ∧ (∀ k ∈ values, countList (keyId k) ≠ [] →
        (⟨keyId k, keyName k, (countList (keyId k)).dedup.length⟩ : FacetEntry) ∈
          facetGroupsBy rows key sid le (fun k c => (⟨keyId k, keyName k, c⟩ : FacetEntry)))
    ∧ (facetGroupsBy rows key sid le (fun k c => (⟨keyId k, keyName k, c⟩ : FacetEntry)) = []
        ↔ ∀ k ∈ values, countList (keyId k) = []) := by
  have hcnt : ∀ k ∈ values, groupCount rows key sid k = (countList (keyId k)).dedup.length := by
    intro k hk
    unfold groupCount
    apply dedup_length_eq_of_mem_iff
    intro i
    rw [← hchar k hk i]
    simp only [List.mem_map, List.mem_filter, decide_eq_true_eq]
    constructor
    · rintro ⟨r, ⟨hr, hkr⟩, hi⟩
      exact ⟨r, hr, hkr, hi⟩
    · rintro ⟨r, hr, hkr, hi⟩
      exact ⟨r, ⟨hr, hkr⟩, hi⟩
  refine ⟨?_, ?_, ?_⟩
  · intro e he
    rcases mem_facetGroupsBy.1 he with ⟨k, hk, rfl⟩
    have hkv : k ∈ values := by
      rcases List.mem_map.1 hk with ⟨r, hr, hkr⟩
      exact hkr ▸ hkey r hr
    exact ⟨⟨k, hkv, rfl, rfl⟩, hcnt k hkv, groupCount_ne_zero hk⟩
  · intro k hk hne
    obtain ⟨i, hi⟩ := List.exists_mem_of_ne_nil _ hne
    obtain ⟨r, hr, hkr, _⟩ := (hchar k hk i).2 hi
    have hkmem : k ∈ rows.map key := hkr ▸ List.mem_map_of_mem key hr
    rw [← hcnt k hk]
    exact mem_facetGroupsBy.2 ⟨k, hkmem, rfl⟩
  · rw [facetGroupsBy_eq_nil]
    constructor
    · intro hnil k hk
      by_contra hne
      obtain ⟨i, hi⟩ := List.exists_mem_of_ne_nil _ hne
      obtain ⟨r, hr, _, _⟩ := (hchar k hk i).2 hi
      rw [hnil] at hr
      exact absurd hr (List.not_mem_nil _)
    · intro hall
      by_contra hne
      obtain ⟨r, hr⟩ := List.exists_mem_of_ne_nil rows hne
      have hkv := hkey r hr
      have hmem : sid r ∈ countList (keyId (key r)) :=
        (hchar _ hkv (sid r)).1 ⟨r, hr, rfl, rfl⟩
      rw [hall _ hkv] at hmem
      exact absurd hmem (List.not_mem_nil _)

theorem titleSearch_empty (t : String) : titleSearch "" t = true := rfl

theorem city_eq_of_ids {db : DB} (hdb : DBInv db) {a b : City}
    (ha : a ∈ db.cities) (hb : b ∈ db.cities) (h : a.id = b.id) : a = b :=
  List.inj_on_of_nodup_map hdb.cityIds ha hb h

theorem region_eq_of_ids {db : DB} (hdb : DBInv db) {a b : Region}
    (ha : a ∈ db.regions) (hb : b ∈ db.regions) (h : a.id = b.id) : a = b :=
  List.inj_on_of_nodup_map hdb.regionIds ha hb h

theorem genre_witness {db : DB} {s : Song} (hdb : DBInv db) (hs : s ∈ db.songs)
    (hedu : educationGenresEmpty db s = true) (l : List Nat)
    (hgen : l = [] ∨ ∃ gid ∈ l, (s.id, gid) ∈ db.songGenres) :
    ∃ g ∈ db.genres, songGenreLink db s g = true ∧ inFilter l g.id = true := by
  rcases hgen with hnil | ⟨gid, hgid, hpair⟩
  · subst hnil
    obtain ⟨p, hp, hps⟩ := hdb.publicHasGenre s hs hedu
    obtain ⟨g, hg, hgp⟩ := hdb.linkGenre p hp
    refine ⟨g, hg, ?_, by simp [inFilter]⟩
    rw [songGenreLink_iff]
    have hpe : (s.id, g.id) = p := by
      rw [hgp, ← hps]
    exact hpe ▸ hp
  · obtain ⟨g, hg, hgp⟩ := hdb.linkGenre (s.id, gid) hpair
    refine ⟨g, hg, ?_, ?_⟩
    · rw [songGenreLink_iff]
      simpa [hgp] using hpair
    · rw [inFilter_iff]
      exact Or.inr (hgp ▸ hgid)

theorem countries_char (db : DB) (f : Filters) (hdb : DBInv db) :
    ∀ k ∈ db.countries, ∀ i : Nat,
      (∃ r ∈ getCountriesRows db f, r.co = k ∧ r.s.id = i) ↔
      i ∈ (db.songs.filter (fun s =>
            specMatches db (facetParams .country f) s
            && specBelongs db Dim.country k.id s)).map (fun s => s.id) := by
  intro k hk i
  rw [List.mem_map]
  simp only [List.mem_filter, Bool.and_eq_true]
  constructor
  · rintro ⟨r, hr, rfl, rfl⟩
    rw [mem_getCountriesRows] at hr
    obtain ⟨hco, hre, hci, hs, hg, e1, e2, e3, hlink, hbase, f1, f2, f3, f4⟩ := hr
    obtain ⟨hact, hedu⟩ := songBase_iff.1 hbase
    refine ⟨r.s, ⟨hs, ?_, ?_⟩, rfl⟩
    · rw [specMatches_iff]
      simp only [facetParams]
      refine ⟨hact, hedu, Or.inl trivial, ?_, ?_, ?_, ?_, titleSearch_empty _⟩
      · rcases inFilter_iff.1 f2 with hnil | hmem
        · exact Or.inl hnil
        · exact Or.inr ⟨r.ci, hci, e3.symm, hmem⟩
      · rcases inFilter_iff.1 f1 with hnil | hmem
        · exact Or.inl hnil
        · exact Or.inr (e3 ▸ hmem)
      · rcases inFilter_iff.1 f4 with hnil | hmem
        · exact Or.inl hnil
        · exact Or.inr ⟨r.g.id, hmem, songGenreLink_iff.1 hlink⟩
      · rcases inFilter_iff.1 f3 with hnil | hmem
        · exact Or.inl hnil
        · exact Or.inr hmem
    · rw [specBelongs_country_iff]
      exact ⟨r.ci, hci, e3.symm, r.re, hre, e2.symm, e1⟩
  · rintro ⟨s, ⟨hs, hmatch, hbel⟩, rfl⟩
    rw [specMatches_iff] at hmatch
    simp only [facetParams] at hmatch
    obtain ⟨hact, hedu, _, hreg, hcity, hgen, hfund, _⟩ := hmatch
    rw [specBelongs_country_iff] at hbel
    obtain ⟨ci, hci, hcid, re, hre, hrid, hrc⟩ := hbel
    obtain ⟨g, hg, hlink, hgf⟩ := genre_witness hdb hs hedu f.genre_id hgen
    refine ⟨⟨k, re, ci, s, g⟩, ?_, rfl, rfl⟩
    rw [mem_getCountriesRows]
    refine ⟨hk, hre, hci, hs, hg, hrc, hrid.symm, hcid.symm, hlink,
      songBase_iff.2 ⟨hact, hedu⟩, ?_, ?_, ?_, hgf⟩
    · rw [inFilter_iff]
      rcases hcity with hnil | hmem
      · exact Or.inl hnil
      · exact Or.inr (hcid ▸ hmem)
    · rw [inFilter_iff]
      rcases hreg with hnil | ⟨ci2, hci2, hcid2, hmem⟩
      · exact Or.inl hnil
      · have : ci2 = ci := city_eq_of_ids hdb hci2 hci (by rw [hcid2, hcid])
        exact Or.inr (this ▸ hmem)
    · rw [inFilter_iff]
      rcases hfund with hnil | hmem
      · exact Or.inl hnil
      · exact Or.inr hmem

theorem regions_char (db : DB) (f : Filters) (hdb : DBInv db) :
    ∀ k ∈ db.regions, ∀ i : Nat,
      (∃ r ∈ getRegionsRows db f, r.re = k ∧ r.s.id = i) ↔
      i ∈ (db.songs.filter (fun s =>
            specMatches db (facetParams .region f) s
            && specBelongs db Dim.region k.id s)).map (fun s => s.id) := by
  intro k hk i
  rw [List.mem_map]
  simp only [List.mem_filter, Bool.and_eq_true]
  constructor
  · rintro ⟨r, hr, rfl, rfl⟩
    rw [mem_getRegionsRows] at hr
    obtain ⟨hre, hci, hs, hg, e1, e2, hlink, hbase, f1, f2, f3, f4⟩ := hr
    obtain ⟨hact, hedu⟩ := songBase_iff.1 hbase
    refine ⟨r.s, ⟨hs, ?_, ?_⟩, rfl⟩
    · rw [specMatches_iff]
      simp only [facetParams]
      refine ⟨hact, hedu, ?_, Or.inl trivial, ?_, ?_, ?_, titleSearch_empty _⟩
      · rcases inFilter_iff.1 f1 with hnil | hmem
        · exact Or.inl hnil
        · exact Or.inr ⟨r.ci, hci, e2.symm, r.re, hre, e1.symm, hmem⟩
      · rcases inFilter_iff.1 f2 with hnil | hmem
        · exact Or.inl hnil
        · exact Or.inr (e2 ▸ hmem)
      · rcases inFilter_iff.1 f3 with hnil | hmem
        · exact Or.inl hnil
        · exact Or.inr ⟨r.g.id, hmem, songGenreLink_iff.1 hlink⟩
      · rcases inFilter_iff.1 f4 with hnil | hmem
        · exact Or.inl hnil
        · exact Or.inr hmem
    · rw [specBelongs_region_iff]
      exact ⟨r.ci, hci, e2.symm, e1⟩
  · rintro ⟨s, ⟨hs, hmatch, hbel⟩, rfl⟩
    rw [specMatches_iff] at hmatch
    simp only [facetParams] at hmatch
    obtain ⟨hact, hedu, hcountry, _, hcity, hgen, hfund, _⟩ := hmatch
    rw [specBelongs_region_iff] at hbel
    obtain ⟨ci, hci, hcid, hcreg⟩ := hbel
    obtain ⟨g, hg, hlink, hgf⟩ := genre_witness hdb hs hedu f.genre_id hgen
    refine ⟨⟨k, ci, s, g⟩, ?_, rfl, rfl⟩
    rw [mem_getRegionsRows]
    refine ⟨hk, hci, hs, hg, hcreg, hcid.symm, hlink,
      songBase_iff.2 ⟨hact, hedu⟩, ?_, ?_, hgf, ?_⟩
    · rw [inFilter_iff]
      rcases hcountry with hnil | ⟨ci2, hci2, hcid2, re2, hre2, hrid2, hmem⟩
      · exact Or.inl hnil
      · have hcc : ci2 = ci := city_eq_of_ids hdb hci2 hci (by rw [hcid2, hcid])
        have hrr : re2 = k := by
          apply region_eq_of_ids hdb hre2 hk
          rw [hrid2, hcc, hcreg]
        exact Or.inr (hrr ▸ hmem)
    · rw [inFilter_iff]
      rcases hcity with hnil | hmem
      · exact Or.inl hnil
      · exact Or.inr (hcid ▸ hmem)
    · rw [inFilter_iff]
      rcases hfund with hnil | hmem
      · exact Or.inl hnil
      · exact Or.inr hmem

theorem cities_char (db : DB) (f : Filters) (hdb : DBInv db) :
    ∀ k ∈ db.cities, ∀ i : Nat,
      (∃ r ∈ getCitiesRows db f, r.ci = k ∧ r.s.id = i) ↔
      i ∈ (db.songs.filter (fun s =>
            specMatches db (facetParams .city f) s
            && specBelongs db Dim.city k.id s)).map (fun s => s.id) := by
  intro k hk i
  rw [List.mem_map]
  simp only [List.mem_filter, Bool.and_eq_true]
  constructor
  · rintro ⟨r, hr, rfl, rfl⟩
    rw [mem_getCitiesRows] at hr
    obtain ⟨hci, hs, hg, e1, hlink, hbase, f1, f2, f3, f4⟩ := hr
    obtain ⟨hact, hedu⟩ := songBase_iff.1 hbase
    refine ⟨r.s, ⟨hs, ?_, ?_⟩, rfl⟩
    · rw [specMatches_iff]
      simp only [facetParams]
      refine ⟨hact, hedu, ?_, ?_, Or.inl trivial, ?_, ?_, titleSearch_empty _⟩
      · rcases inFilter_iff.1 f1 with hnil | hmem
        · exact Or.inl hnil
        · obtain ⟨re, hre, hrid⟩ := hdb.cityRegion r.ci hci
          have hcc : r.ci.country_id = re.country_id := hdb.cityCountry r.ci hci re hre hrid
          exact Or.inr ⟨r.ci, hci, e1.symm, re, hre, hrid, hcc ▸ hmem⟩
      · rcases inFilter_iff.1 f2 with hnil | hmem
        · exact Or.inl hnil
        · exact Or.inr ⟨r.ci, hci, e1.symm, hmem⟩
      · rcases inFilter_iff.1 f3 with hnil | hmem
        · exact Or.inl hnil
        · exact Or.inr ⟨r.g.id, hmem, songGenreLink_iff.1 hlink⟩
      · rcases inFilter_iff.1 f4 with hnil | hmem
        · exact Or.inl hnil
        · exact Or.inr hmem
    · rw [specBelongs_city_iff]
      exact e1
  · rintro ⟨s, ⟨hs, hmatch, hbel⟩, rfl⟩
    rw [specMatches_iff] at hmatch
    simp only [facetParams] at hmatch
    obtain ⟨hact, hedu, hcountry, hregion, _, hgen, hfund, _⟩ := hmatch
    rw [specBelongs_city_iff] at hbel
    obtain ⟨g, hg, hlink, hgf⟩ := genre_witness hdb hs hedu f.genre_id hgen
    refine ⟨⟨k, s, g⟩, ?_, rfl, rfl⟩
    rw [mem_getCitiesRows]
    refine ⟨hk, hs, hg, hbel, hlink, songBase_iff.2 ⟨hact, hedu⟩, ?_, ?_, hgf, ?_⟩
    · rw [inFilter_iff]
      rcases hcountry with hnil | ⟨ci2, hci2, hcid2, re2, hre2, hrid2, hmem⟩
      · exact Or.inl hnil
      · have hcc : ci2 = k := city_eq_of_ids hdb hci2 hk (by rw [hcid2, hbel])
        have hkc : k.country_id = re2.country_id :=
          hdb.cityCountry k hk re2 hre2 (by rw [hrid2, hcc])
        exact Or.inr (hkc ▸ hmem)
    · rw [inFilter_iff]
      rcases hregion with hnil | ⟨ci2, hci2, hcid2, hmem⟩
      · exact Or.inl hnil
      · have hcc : ci2 = k := city_eq_of_ids hdb hci2 hk (by rw [hcid2, hbel])
        exact Or.inr (hcc ▸ hmem)
    · rw [inFilter_iff]
      rcases hfund with hnil | hmem
      · exact Or.inl hnil
      · exact Or.inr hmem

theorem genres_char (db : DB) (f : Filters) (hdb : DBInv db) :
    ∀ k ∈ db.genres, ∀ i : Nat,
      (∃ r ∈ getGenresRows db f, r.g = k ∧ r.s.id = i) ↔
      i ∈ (db.songs.filter (fun s =>
            specMatches db (facetParams .genre f) s
            && specBelongs db Dim.genre k.id s)).map (fun s => s.id) := by
  intro k hk i
  rw [List.mem_map]
  simp only [List.mem_filter, Bool.and_eq_true]
  constructor
  · rintro ⟨r, hr, rfl, rfl⟩
    rw [mem_getGenresRows] at hr
    obtain ⟨hg, hs, hci, hre, hco, hfu, hlink, e1, e2, e3, e4, hbase, f1, f2, f3, f4⟩ := hr
    obtain ⟨hact, hedu⟩ := songBase_iff.1 hbase
    refine ⟨r.s, ⟨hs, ?_, ?_⟩, rfl⟩
    · rw [specMatches_iff]
      simp only [facetParams]
      refine ⟨hact, hedu, ?_, ?_, ?_, Or.inl trivial, ?_, titleSearch_empty _⟩
      · rcases inFilter_iff.1 f1 with hnil | hmem
        · exact Or.inl hnil
        · have hcc : r.ci.country_id = r.re.country_id :=
            hdb.cityCountry r.ci hci r.re hre e2.symm
        -- r.re.country_id = r.co.id, member of list
          have hrc : r.re.country_id ∈ f.country_id := by
            rw [← hcc, e3]
            exact hmem
          exact Or.inr ⟨r.ci, hci, e1.symm, r.re, hre, e2.symm, hrc⟩
      · rcases inFilter_iff.1 f2 with hnil | hmem
        · exact Or.inl hnil
        · exact Or.inr ⟨r.ci, hci, e1.symm, by rw [e2]; exact hmem⟩
      · rcases inFilter_iff.1 f3 with hnil | hmem
        · exact Or.inl hnil
        · exact Or.inr (e1 ▸ hmem)
      · rcases inFilter_iff.1 f4 with hnil | hmem
        · exact Or.inl hnil
        · exact Or.inr hmem
    · rw [specBelongs_genre_iff]
      exact songGenreLink_iff.1 hlink
  · rintro ⟨s, ⟨hs, hmatch, hbel⟩, rfl⟩
    rw [specMatches_iff] at hmatch
    simp only [facetParams] at hmatch
    obtain ⟨hact, hedu, hcountry, hregion, hcity, _, hfund, _⟩ := hmatch
    rw [specBelongs_genre_iff] at hbel
    obtain ⟨ci, hci, hcid⟩ := hdb.songCity s hs
    obtain ⟨re, hre, hrid⟩ := hdb.cityRegion ci hci
    obtain ⟨co, hco, hcoid⟩ := hdb.regionCountry re hre
    obtain ⟨fu, hfu, hfid⟩ := hdb.songFund s hs
    have hcc : ci.country_id = re.country_id := hdb.cityCountry ci hci re hre hrid
    have hcico : ci.country_id = co.id := by rw [hcc, hcoid]
    refine ⟨⟨k, s, ci, re, co, fu⟩, ?_, rfl, rfl⟩
    rw [mem_getGenresRows]
    refine ⟨hk, hs, hci, hre, hco, hfu, songGenreLink_iff.2 hbel, hcid.symm, hrid.symm,
      hcico, hfid.symm, songBase_iff.2 ⟨hact, hedu⟩, ?_, ?_, ?_, ?_⟩
    · rw [inFilter_iff]
      rcases hcountry with hnil | ⟨ci2, hci2, hcid2, re2, hre2, hrid2, hmem⟩
      · exact Or.inl hnil
      · have hc2 : ci2 = ci := city_eq_of_ids hdb hci2 hci (by rw [hcid2, hcid])
        have hr2 : re2 = re := by
          apply region_eq_of_ids hdb hre2 hre
          rw [hrid2, hc2, hrid]
        have : co.id ∈ f.country_id := by
          rw [hcoid, ← hr2]
          exact hmem
        exact Or.inr this
    · rw [inFilter_iff]
      rcases hregion with hnil | ⟨ci2, hci2, hcid2, hmem⟩
      · exact Or.inl hnil
      · have hc2 : ci2 = ci := city_eq_of_ids hdb hci2 hci (by rw [hcid2, hcid])
        have : re.id ∈ f.region_id := by
          rw [hrid, ← hc2]
          exact hmem
        exact Or.inr this
    · rw [inFilter_iff]
      rcases hcity with hnil | hmem
      · exact Or.inl hnil
      · exact Or.inr (hcid ▸ hmem)
    · rw [inFilter_iff]
      rcases hfund with hnil | hmem
      · exact Or.inl hnil
      · exact Or.inr hmem

theorem funds_char (db : DB) (f : Filters) (hdb : DBInv db) :
    ∀ k ∈ db.funds, ∀ i : Nat,
      (∃ r ∈ getFundsRows db f, r.fu = k ∧ r.s.id = i) ↔
      i ∈ (db.songs.filter (fun s =>
            specMatches db (facetParams .fund f) s
            && specBelongs db Dim.fund k.id s)).map (fun s => s.id) := by
  intro k hk i
  rw [List.mem_map]
  simp only [List.mem_filter, Bool.and_eq_true]
  constructor
  · rintro ⟨r, hr, rfl, rfl⟩
    rw [mem_getFundsRows] at hr
    obtain ⟨hfu, hs, hci, hre, hco, hg, e1, e2, e3, e4, hlink, hbase, f1, f2, f3, f4⟩ := hr
    obtain ⟨hact, hedu⟩ := songBase_iff.1 hbase
    refine ⟨r.s, ⟨hs, ?_, ?_⟩, rfl⟩
    · rw [specMatches_iff]
      simp only [facetParams]
      refine ⟨hact, hedu, ?_, ?_, ?_, ?_, Or.inl trivial, titleSearch_empty _⟩
      · rcases inFilter_iff.1 f1 with hnil | hmem
        · exact Or.inl hnil
        · have hcc : r.ci.country_id = r.re.country_id :=
            hdb.cityCountry r.ci hci r.re hre e3.symm
          have hrc : r.re.country_id ∈ f.country_id := by
            rw [← hcc, e4]
            exact hmem
          exact Or.inr ⟨r.ci, hci, e2.symm, r.re, hre, e3.symm, hrc⟩
      · rcases inFilter_iff.1 f2 with hnil | hmem
        · exact Or.inl hnil
        · exact Or.inr ⟨r.ci, hci, e2.symm, by rw [e3]; exact hmem⟩
      · rcases inFilter_iff.1 f3 with hnil | hmem
        · exact Or.inl hnil
        · exact Or.inr (e2 ▸ hmem)
      · rcases inFilter_iff.1 f4 with hnil | hmem
        · exact Or.inl hnil
        · exact Or.inr ⟨r.g.id, hmem, songGenreLink_iff.1 hlink⟩
    · rw [specBelongs_fund_iff]
      exact e1
  · rintro ⟨s, ⟨hs, hmatch, hbel⟩, rfl⟩
    rw [specMatches_iff] at hmatch
    simp only [facetParams] at hmatch
    obtain ⟨hact, hedu, hcountry, hregion, hcity, hgen, _, _⟩ := hmatch
    rw [specBelongs_fund_iff] at hbel
    obtain ⟨ci, hci, hcid⟩ := hdb.songCity s hs
    obtain ⟨re, hre, hrid⟩ := hdb.cityRegion ci hci
    obtain ⟨co, hco, hcoid⟩ := hdb.regionCountry re hre
    have hcc : ci.country_id = re.country_id := hdb.cityCountry ci hci re hre hrid
    have hcico : ci.country_id = co.id := by rw [hcc, hcoid]
    obtain ⟨g, hg, hlink, hgf⟩ := genre_witness hdb hs hedu f.genre_id hgen
    refine ⟨⟨k, s, ci, re, co, g⟩, ?_, rfl, rfl⟩
    rw [mem_getFundsRows]
    refine ⟨hk, hs, hci, hre, hco, hg, hbel, hcid.symm, hrid.symm, hcico,
      hlink, songBase_iff.2 ⟨hact, hedu⟩, ?_, ?_, ?_, hgf⟩
    · rw [inFilter_iff]
      rcases hcountry with hnil | ⟨ci2, hci2, hcid2, re2, hre2, hrid2, hmem⟩
      · exact Or.inl hnil
      · have hc2 : ci2 = ci := city_eq_of_ids hdb hci2 hci (by rw [hcid2, hcid])
        have hr2 : re2 = re := by
          apply region_eq_of_ids hdb hre2 hre
          rw [hrid2, hc2, hrid]
        have : co.id ∈ f.country_id := by
          rw [hcoid, ← hr2]
          exact hmem
        exact Or.inr this
    · rw [inFilter_iff]
      rcases hregion with hnil | ⟨ci2, hci2, hcid2, hmem⟩
      · exact Or.inl hnil
      · have hc2 : ci2 = ci := city_eq_of_ids hdb hci2 hci (by rw [hcid2, hcid])
        have : re.id ∈ f.region_id := by
          rw [hrid, ← hc2]
          exact hmem
        exact Or.inr this
    · rw [inFilter_iff]
      rcases hcity with hnil | hmem
      · exact Or.inl hnil
      · exact Or.inr (hcid ▸ hmem)

theorem dedup_length_eq_zero_iff {l : List Nat} : l.dedup.length = 0 ↔ l = [] := by
  rw [List.length_eq_zero, List.dedup_eq_nil]

theorem ite_notFound_iff {α : Type} [DecidableEq α] {xs : List α} :
    (if xs.isEmpty then (Resp.notFound : Resp (List α)) else .ok xs) = Resp.notFound
      ↔ xs = [] := by
  rcases xs with _ | ⟨a, t⟩
  · simp
  · simp

theorem facetIsNotFound_iff (d : Dim) (db : DB) (f : Filters) :
    facetIsNotFound d db f ↔ facetEntries d db f = [] := by
  cases d
  case country => exact ite_notFound_iff
  case region =>
    show (if (get_regions_result db f).isEmpty then _ else _) = _ ↔ _
    rw [ite_notFound_iff]
    simp only [facetEntries, List.map_eq_nil]
  case city =>
    show (if (get_cities_result db f).isEmpty then _ else _) = _ ↔ _
    rw [ite_notFound_iff]
    simp only [facetEntries, List.map_eq_nil]
  case genre => exact ite_notFound_iff
  case fund => exact ite_notFound_iff

theorem facetEntries_region_eq (db : DB) (f : Filters) :
    facetEntries .region db f =
      facetGroupsBy (getRegionsRows db f) (fun r => r.re) (fun r => r.s.id)
        (fun a b => a.name ≤ b.name)
        (fun k c => (⟨(fun x : Region => x.id) k, (fun x : Region => x.name) k, c⟩ : FacetEntry)) := by
  simp only [facetEntries, get_regions_result, facetGroupsBy, List.map_map]
  rfl

theorem facetEntries_city_eq (db : DB) (f : Filters) :
    facetEntries .city db f =
      facetGroupsBy (getCitiesRows db f) (fun r => r.ci) (fun r => r.s.id)
        (fun a b => a.name ≤ b.name)
        (fun k c => (⟨(fun x : City => x.id) k, (fun x : City => x.name) k, c⟩ : FacetEntry)) := by
  simp only [facetEntries, get_cities_result, facetGroupsBy, List.map_map]
  rfl

theorem facetEntries_country_eq (db : DB) (f : Filters) :
    facetEntries .country db f =
      facetGroupsBy (getCountriesRows db f) (fun r => r.co) (fun r => r.s.id)
        (fun a b => a.name ≤ b.name)
        (fun k c => (⟨(fun x : Country => x.id) k, (fun x : Country => x.name) k, c⟩ : FacetEntry)) :=
  rfl

theorem facetEntries_genre_eq (db : DB) (f : Filters) :
    facetEntries .genre db f =
      facetGroupsBy (getGenresRows db f) (fun r => r.g) (fun r => r.s.id)
        (fun a b => a.id ≤ b.id)
        (fun k c => (⟨(fun x : Genre => x.id) k, (fun x : Genre => x.genre_name) k, c⟩ : FacetEntry)) :=
  rfl

theorem facetEntries_fund_eq (db : DB) (f : Filters) :
    facetEntries .fund db f =
      facetGroupsBy (getFundsRows db f) (fun r => r.fu) (fun r => r.s.id)
        (fun a b => a.id ≤ b.id)
        (fun k c => (⟨(fun x : Fund => x.id) k, (fun x : Fund => x.title) k, c⟩ : FacetEntry)) :=
  rfl

/-- Claim C8: for every facet dimension and every filter combination, the
facet operation returns exactly the facet values with at least one distinct
matching Record, each annotated with song_count equal to the number of
distinct Records satisfying the composed filter (spec 4.1/4.2, excluding the
own parameter of the dimension) and belonging to that value; zero-count rows
never appear; and when no facet value qualifies the endpoint answers with the
no-matching-data (404) signal instead of an empty list. -/
theorem c8_facet_contract (d : Dim) (db : DB) (f : Filters) (hdb : DBInv db) :
    (∀ e ∈ facetEntries d db f,
        e.song_count = specCount db d (facetParams d f) e.id ∧ e.song_count ≠ 0)
    ∧ (∀ v ∈ facetValues d db, specCount db d (facetParams d f) v.1 ≠ 0 →
        ∃ e ∈ facetEntries d db f, e.id = v.1 ∧ e.name = v.2
          ∧ e.song_count = specCount db d (facetParams d f) v.1)
    ∧ (facetIsNotFound d db f ↔
        ∀ v ∈ facetValues d db, specCount db d (facetParams d f) v.1 = 0) := by
  cases d
  case country =>
    have hcore := facet_core (getCountriesRows db f) (fun r => r.co) (fun r => r.s.id)
      (fun a b => a.name ≤ b.name) (fun x : Country => x.id) (fun x : Country => x.name)
      db.countries
      (fun v => (db.songs.filter (fun s =>
        specMatches db (facetParams .country f) s
        && specBelongs db Dim.country v s)).map (fun s => s.id))
      (fun r hr => (mem_getCountriesRows.1 hr).1)
      (countries_char db f hdb)
    rw [facetIsNotFound_iff, facetEntries_country_eq]
    refine ⟨?_, ?_, ?_⟩
    · intro e he
      obtain ⟨_, h2, h3⟩ := hcore.1 e he
      exact ⟨h2, h3⟩
    · intro v hv hne
      rcases List.mem_map.1 hv with ⟨k, hk, rfl⟩
      have hmem := hcore.2.1 k hk (dedup_length_ne_zero_iff.1 hne)
      exact ⟨_, hmem, rfl, rfl, rfl⟩
    · constructor
      · intro h v hv
        rcases List.mem_map.1 hv with ⟨k, hk, rfl⟩
        exact dedup_length_eq_zero_iff.2 (hcore.2.2.1 h k hk)
      · intro hall
        apply hcore.2.2.2
        intro k hk
        exact dedup_length_eq_zero_iff.1 (hall (k.id, k.name) (List.mem_map_of_mem _ hk))
  case region =>
    have hcore := facet_core (getRegionsRows db f) (fun r => r.re) (fun r => r.s.id)
      (fun a b => a.name ≤ b.name) (fun x : Region => x.id) (fun x : Region => x.name)
      db.regions
      (fun v => (db.songs.filter (fun s =>
        specMatches db (facetParams .region f) s
        && specBelongs db Dim.region v s)).map (fun s => s.id))
      (fun r hr => (mem_getRegionsRows.1 hr).1)
      (regions_char db f hdb)
    rw [facetIsNotFound_iff, facetEntries_region_eq]
    refine ⟨?_, ?_, ?_⟩
    · intro e he
      obtain ⟨_, h2, h3⟩ := hcore.1 e he
      exact ⟨h2, h3⟩
    · intro v hv hne
      rcases List.mem_map.1 hv with ⟨k, hk, rfl⟩
      have hmem := hcore.2.1 k hk (dedup_length_ne_zero_iff.1 hne)
      exact ⟨_, hmem, rfl, rfl, rfl⟩
    · constructor
      · intro h v hv
        rcases List.mem_map.1 hv with ⟨k, hk, rfl⟩
        exact dedup_length_eq_zero_iff.2 (hcore.2.2.1 h k hk)
      · intro hall
        apply hcore.2.2.2
        intro k hk
        exact dedup_length_eq_zero_iff.1 (hall (k.id, k.name) (List.mem_map_of_mem _ hk))
  case city =>
    have hcore := facet_core (getCitiesRows db f) (fun r => r.ci) (fun r => r.s.id)
      (fun a b => a.name ≤ b.name) (fun x : City => x.id) (fun x : City => x.name)
      db.cities
      (fun v => (db.songs.filter (fun s =>
        specMatches db (facetParams .city f) s
        && specBelongs db Dim.city v s)).map (fun s => s.id))
      (fun r hr => (mem_getCitiesRows.1 hr).1)
      (cities_char db f hdb)
    rw [facetIsNotFound_iff, facetEntries_city_eq]
    refine ⟨?_, ?_, ?_⟩
    · intro e he
      obtain ⟨_, h2, h3⟩ := hcore.1 e he
      exact ⟨h2, h3⟩
    · intro v hv hne
      rcases List.mem_map.1 hv with ⟨k, hk, rfl⟩
      have hmem := hcore.2.1 k hk (dedup_length_ne_zero_iff.1 hne)
      exact ⟨_, hmem, rfl, rfl, rfl⟩
    · constructor
      · intro h v hv
        rcases List.mem_map.1 hv with ⟨k, hk, rfl⟩
        exact dedup_length_eq_zero_iff.2 (hcore.2.2.1 h k hk)
      · intro hall
        apply hcore.2.2.2
        intro k hk
        exact dedup_length_eq_zero_iff.1 (hall (k.id, k.name) (List.mem_map_of_mem _ hk))
  case genre =>
    have hcore := facet_core (getGenresRows db f) (fun r => r.g) (fun r => r.s.id)
      (fun a b => a.id ≤ b.id) (fun x : Genre => x.id) (fun x : Genre => x.genre_name)
      db.genres
      (fun v => (db.songs.filter (fun s =>
        specMatches db (facetParams .genre f) s
        && specBelongs db Dim.genre v s)).map (fun s => s.id))
      (fun r hr => (mem_getGenresRows.1 hr).1)
      (genres_char db f hdb)
    rw [facetIsNotFound_iff, facetEntries_genre_eq]
    refine ⟨?_, ?_, ?_⟩
    · intro e he
      obtain ⟨_, h2, h3⟩ := hcore.1 e he
      exact ⟨h2, h3⟩
    · intro v hv hne
      rcases List.mem_map.1 hv with ⟨k, hk, rfl⟩
      have hmem := hcore.2.1 k hk (dedup_length_ne_zero_iff.1 hne)
      exact ⟨_, hmem, rfl, rfl, rfl⟩
    · constructor
      · intro h v hv
        rcases List.mem_map.1 hv with ⟨k, hk, rfl⟩
        exact dedup_length_eq_zero_iff.2 (hcore.2.2.1 h k hk)
      · intro hall
        apply hcore.2.2.2
        intro k hk
        exact dedup_length_eq_zero_iff.1 (hall (k.id, k.genre_name) (List.mem_map_of_mem _ hk))
  case fund =>
    have hcore := facet_core (getFundsRows db f) (fun r => r.fu) (fun r => r.s.id)
      (fun a b => a.id ≤ b.id) (fun x : Fund => x.id) (fun x : Fund => x.title)
      db.funds
      (fun v => (db.songs.filter (fun s =>
        specMatches db (facetParams .fund f) s
        && specBelongs db Dim.fund v s)).map (fun s => s.id))
      (fun r hr => (mem_getFundsRows.1 hr).1)
      (funds_char db f hdb)
    rw [facetIsNotFound_iff, facetEntries_fund_eq]
    refine ⟨?_, ?_, ?_⟩
    · intro e he
      obtain ⟨_, h2, h3⟩ := hcore.1 e he
      exact ⟨h2, h3⟩
    · intro v hv hne
      rcases List.mem_map.1 hv with ⟨k, hk, rfl⟩
      have hmem := hcore.2.1 k hk (dedup_length_ne_zero_iff.1 hne)
      exact ⟨_, hmem, rfl, rfl, rfl⟩
    · constructor
      · intro h v hv
        rcases List.mem_map.1 hv with ⟨k, hk, rfl⟩
        exact dedup_length_eq_zero_iff.2 (hcore.2.2.1 h k hk)
      · intro hall
        apply hcore.2.2.2
        intro k hk
        exact dedup_length_eq_zero_iff.1 (hall (k.id, k.title) (List.mem_map_of_mem _ hk))

theorem db1_inv : DBInv db1 := by
  constructor <;> decide

/-- Claim C1 (code-bug evaluation): `my_key_builder` derives the key from the
id keyword argument only, so two get_countries requests whose city_id filter
lists differ are cached under the same key - the key is not a function of the
normalized filter-parameter set. -/
theorem c1_key_ignores_filters :
    (∀ pre : String,
      my_key_builder pre "get_countries" kwA = my_key_builder pre "get_countries" kwB)
    ∧ kwA.city_id ≠ kwB.city_id := by
  constructor
  · intro pre
    rfl
  · decide

/-- Claim C3 (code-bug evaluation): with one active song carrying two public
genres and the empty filter, filter_songs returns the song twice on the page
and reports total 2, while exactly one distinct record satisfies the composed
filter. -/
theorem c3_duplicate_rows :
    filter_songs db2 f0 50 0 = .ok ⟨[song1, song1], 2⟩
    ∧ ((db2.songs.filter (fun s => specMatches db2 f0 s)).map
        (fun s => s.id)).dedup.length = 1 := by
  constructor
  · decide
  · decide

/-- Claim C6 (code-bug evaluation): a point lookup for an id that matches no
Record reaches the eager attribute access on None and is answered with the
500 internal-error condition, not with the 404 not-found signal. -/
theorem c6_missing_record_is_internal_error :
    get_song_on_map_by_id dbEmpty 1 = .internalError
    ∧ get_song_on_map_by_id dbEmpty 1 ≠ .notFound := by
  constructor
  · decide
  · decide

/-- Claim C7: for every logical function name passed to the (spec-modelled)
cache invalidation operation, exactly the cached entries whose key begins
with that function name are removed and every other entry is kept. -/
theorem c7_invalidation_by_name (pre : String) (funcs : List String) (c : Cache)
    (k v : String) :
    (k, v) ∈ invalidateCacheNames pre funcs c ↔
      (k, v) ∈ c ∧ ∀ fn ∈ funcs, ¬((cache_key pre fn none).isPrefixOf k = true) := by
  unfold invalidateCacheNames
  rw [List.mem_filter]
  simp [List.any_eq_true]

/-- Claim C4 counterexample: after a successful Genre deletion the code
requests invalidation of filter_songs only - not of the get_genres facet
function - and after a successful Fund deletion it requests no invalidation
at all, contradicting the claimed invalidation sets. -/
theorem c4_counterexample :
    genre_delete_model dbTwoGenres 2
      = .deleted (removeGenre dbTwoGenres 2) [ "filter_songs"]
    ∧ "get_genres" ∉ invalidatedOf (genre_delete_model dbTwoGenres 2)
    ∧ fund_delete_model dbSpareFund 2 = .deleted (removeFund dbSpareFund 2) []
    ∧ "get_funds" ∉ invalidatedOf (fund_delete_model dbSpareFund 2) := by
  refine ⟨by decide, by decide, by decide, by decide⟩

/-- Claim C4 (amended): after a successful (unblocked) Genre deletion, cache
invalidation is requested for exactly the song-listing function filter_songs;
after a successful Fund deletion no invalidation is requested. -/
theorem c4_amended (db : DB) (pkg pkf : Nat)
    (hg : genreConflictData db pkg = none) (hf : fundConflictData db pkf = none) :
    invalidatedOf (genre_delete_model db pkg) = [ "filter_songs"]
    ∧ invalidatedOf (fund_delete_model db pkf) = [] := by
  unfold genre_delete_model fund_delete_model
  rw [hg, hf]
  exact ⟨rfl, rfl⟩

/-- Witness for c4_amended at a concrete database with an unused genre and an
unused fund. -/
theorem c4_amended_witness :
    invalidatedOf (genre_delete_model dbSpareFund 2) = [ "filter_songs"]
    ∧ invalidatedOf (fund_delete_model dbSpareFund 2) = [] :=
  c4_amended dbSpareFund 2 2 (by decide) (by decide)

theorem filterSongs_item_mem {db : DB} {f : Filters} {limit offset : Nat} {s : Song}
    (h : s ∈ (paginateRows (filterSongsSelected db f) limit offset).items) :
    ∃ r ∈ filterSongsRows db f, r.s = s := by
  have h1 : s ∈ filterSongsSelected db f :=
    List.mem_of_mem_drop (List.mem_of_mem_take h)
  unfold filterSongsSelected at h1
  have h2 : s ∈ (filterSongsRows db f).map (fun r => r.s) :=
    (List.perm_insertionSort _ _).mem_iff.1 h1
  rcases List.mem_map.1 h2 with ⟨r, hr, rfl⟩
  exact ⟨r, hr, rfl⟩

theorem get_song_on_map_by_id_ok {db : DB} {i : Nat} {s : Song}
    (h : get_song_on_map_by_id db i = .ok s) :
    findSong db i = some s ∧ s.is_active = true ∧ educationGenresEmpty db s = true := by
  unfold get_song_on_map_by_id at h
  cases hf : findSong db i with
  | none =>
    rw [hf] at h
    exact absurd h (by simp)
  | some r =>
    rw [hf] at h
    replace h : (if (r.is_active && educationGenresEmpty db r) = true then Resp.ok r
        else Resp.notFound) = Resp.ok s := h
    by_cases hb : (r.is_active && educationGenresEmpty db r) = true
    · rw [if_pos hb] at h
      injection h with h2
      subst h2
      rw [Bool.and_eq_true] at hb
      exact ⟨rfl, hb.1, hb.2⟩
    · rw [if_neg hb] at h
      exact absurd h (by simp)

/-- Claim C2: on every read surface - the five facet queries, the paginated
song listing, the geotag listing and the point lookup - every Record that
appears in or is counted by the output is active and carries no
education-genre association. -/
theorem c2_public_partition (db : DB) (f : Filters) :
    (∀ r ∈ getCountriesRows db f, r.s.is_active = true ∧ educationGenresEmpty db r.s = true)
    ∧ (∀ r ∈ getRegionsRows db f, r.s.is_active = true ∧ educationGenresEmpty db r.s = true)
    ∧ (∀ r ∈ getCitiesRows db f, r.s.is_active = true ∧ educationGenresEmpty db r.s = true)
    ∧ (∀ r ∈ getGenresRows db f, r.s.is_active = true ∧ educationGenresEmpty db r.s = true)
    ∧ (∀ r ∈ getFundsRows db f, r.s.is_active = true ∧ educationGenresEmpty db r.s = true)
    ∧ (∀ limit offset : Nat, ∀ s ∈ (paginateRows (filterSongsSelected db f) limit offset).items,
        s.is_active = true ∧ educationGenresEmpty db s = true)
    ∧ (∀ r ∈ filterSongGeotagsRows db f, r.s.is_active = true ∧ educationGenresEmpty db r.s = true)
    ∧ (∀ i : Nat, ∀ s : Song, get_song_on_map_by_id db i = .ok s →
        s.is_active = true ∧ educationGenresEmpty db s = true) := by
  refine ⟨?_, ?_, ?_, ?_, ?_, ?_, ?_, ?_⟩
  · intro r hr
    exact songBase_iff.1 (mem_getCountriesRows.1 hr).2.2.2.2.2.2.2.2.2.1
  · intro r hr
    exact songBase_iff.1 (mem_getRegionsRows.1 hr).2.2.2.2.2.2.2.1
  · intro r hr
    exact songBase_iff.1 (mem_getCitiesRows.1 hr).2.2.2.2.2.1
  · intro r hr
    exact songBase_iff.1 (mem_getGenresRows.1 hr).2.2.2.2.2.2.2.2.2.2.2.1
  · intro r hr
    exact songBase_iff.1 (mem_getFundsRows.1 hr).2.2.2.2.2.2.2.2.2.2.2.1
  · intro limit offset s hs
    obtain ⟨r, hr, rfl⟩ := filterSongs_item_mem hs
    exact songBase_iff.1 (mem_filterSongsRows.1 hr).2.2.2.2.2.2.2.2.2.1
  · intro r hr
    exact songBase_iff.1 (mem_filterSongGeotagsRows.1 hr).2.2.2.2.2.2.2.2.2.1
  · intro i s h
    exact (get_song_on_map_by_id_ok h).2

/-- Witness for c2_public_partition at the concrete db1 fixture. -/
theorem c2_witness : song1.is_active = true ∧ educationGenresEmpty db1 song1 = true :=
  (c2_public_partition db1 f0).1 row1 (by decide)

/-- Claim C10: every collection read inner-joins through the public
Record-Genre association, so a Record surfacing in (or counted by) any
collection output carries at least one public genre link; the point lookup
by id, by contrast, returns an active non-education Record even when its
public genre set is empty. -/
theorem c10_genre_join (db : DB) (f : Filters) :
    (∀ r ∈ getCountriesRows db f, ∃ p ∈ db.songGenres, p.1 = r.s.id)
    ∧ (∀ r ∈ getRegionsRows db f, ∃ p ∈ db.songGenres, p.1 = r.s.id)
    ∧ (∀ r ∈ getCitiesRows db f, ∃ p ∈ db.songGenres, p.1 = r.s.id)
    ∧ (∀ r ∈ getGenresRows db f, ∃ p ∈ db.songGenres, p.1 = r.s.id)
    ∧ (∀ r ∈ getFundsRows db f, ∃ p ∈ db.songGenres, p.1 = r.s.id)
    ∧ (∀ limit offset : Nat, ∀ s ∈ (paginateRows (filterSongsSelected db f) limit offset).items,
        ∃ p ∈ db.songGenres, p.1 = s.id)
    ∧ (∀ r ∈ filterSongGeotagsRows db f, ∃ p ∈ db.songGenres, p.1 = r.s.id)
    ∧ (∀ i : Nat, ∀ s : Song, findSong db i = some s → s.is_active = true →
        educationGenresEmpty db s = true → get_song_on_map_by_id db i = .ok s) := by
  refine ⟨?_, ?_, ?_, ?_, ?_, ?_, ?_, ?_⟩
  · intro r hr
    exact ⟨(r.s.id, r.g.id),
      songGenreLink_iff.1 (mem_getCountriesRows.1 hr).2.2.2.2.2.2.2.2.1, rfl⟩
  · intro r hr
    exact ⟨(r.s.id, r.g.id),
      songGenreLink_iff.1 (mem_getRegionsRows.1 hr).2.2.2.2.2.2.1, rfl⟩
  · intro r hr
    exact ⟨(r.s.id, r.g.id),
      songGenreLink_iff.1 (mem_getCitiesRows.1 hr).2.2.2.2.1, rfl⟩
  · intro r hr
    exact ⟨(r.s.id, r.g.id),
      songGenreLink_iff.1 (mem_getGenresRows.1 hr).2.2.2.2.2.2.1, rfl⟩
  · intro r hr
    exact ⟨(r.s.id, r.g.id),
      songGenreLink_iff.1 (mem_getFundsRows.1 hr).2.2.2.2.2.2.2.2.2.2.1, rfl⟩
  · intro limit offset s hs
    obtain ⟨r, hr, rfl⟩ := filterSongs_item_mem hs
    exact ⟨(r.s.id, r.g.id),
      songGenreLink_iff.1 (mem_filterSongsRows.1 hr).2.2.2.2.2.2.2.2.1, rfl⟩
  · intro r hr
    exact ⟨(r.s.id, r.g.id),
      songGenreLink_iff.1 (mem_filterSongGeotagsRows.1 hr).2.2.2.2.2.2.2.2.1, rfl⟩
  · intro i s hf ha he
    unfold get_song_on_map_by_id
    rw [hf]
    show (if (s.is_active && educationGenresEmpty db s) = true then Resp.ok s
        else Resp.notFound) = Resp.ok s
    rw [if_pos (by rw [Bool.and_eq_true]; exact ⟨ha, he⟩)]

/-- Witness for c10_genre_join: a joined row always carries a genre link, and
the point lookup returns the genre-less active song of dbNoGenre. -/
theorem c10_witness :
    (∃ p ∈ db1.songGenres, p.1 = song1.id)
    ∧ get_song_on_map_by_id dbNoGenre 1 = .ok song1 :=
  ⟨(c10_genre_join db1 f0).1 row1 (by decide),
    (c10_genre_join dbNoGenre f0).2.2.2.2.2.2.2 1 song1 (by decide) (by decide) (by decide)⟩

theorem mentions_self (m : String) : mentions m m :=
  List.infix_rfl

theorem mentions_append_right {m sub : String} (x : String) (h : mentions m sub) :
    mentions (m ++ x) sub := by
  show sub.data <:+: (m ++ x).data
  have hx : (m ++ x).data = m.data ++ x.data := rfl
  rw [hx]
  exact h.trans (List.prefix_append m.data x.data).isInfix

theorem mentions_append_left {m sub : String} (x : String) (h : mentions m sub) :
    mentions (x ++ m) sub := by
  show sub.data <:+: (x ++ m).data
  have hx : (x ++ m).data = x.data ++ m.data := rfl
  rw [hx]
  exact h.trans (List.suffix_append x.data m.data).isInfix

theorem mentions_pyJoin (sep : String) :
    ∀ (ts : List String) (t : String), t ∈ ts → mentions (pyJoin sep ts) t
  | [], t, h => absurd h (List.not_mem_nil t)
  | [t0], t, h => by
      rcases List.mem_singleton.1 h with rfl
      exact mentions_self _
  | a :: b :: r2, t, h => by
      rcases List.mem_cons.1 h with rfl | hmem
      · exact mentions_append_right _ (mentions_append_right _ (mentions_self t))
      · exact mentions_append_left _ (mentions_pyJoin sep (b :: r2) t hmem)

theorem genreConflictData_eq_some {db : DB} {pk : Nat} {g : Genre}
    (hg : (db.genres.filter (fun x => x.id == pk)).head? = some g)
    (hne : genreAssocSongs db g ≠ []) :
    genreConflictData db pk = some (g, genreAssocSongs db g) := by
  unfold genreConflictData
  cases hfl : db.genres.filter (fun x => x.id == pk) with
  | nil =>
    rw [hfl] at hg
    cases hg
  | cons a t =>
    rw [hfl] at hg
    rw [List.head?_cons] at hg
    injection hg with h2
    subst h2
    show (if (genreAssocSongs db a).isEmpty then none
        else some (a, genreAssocSongs db a)) = some (a, genreAssocSongs db a)
    rw [if_neg (fun hemp => hne (List.isEmpty_iff.1 hemp))]

theorem genreConflictData_eq_none {db : DB} {pk : Nat} {g : Genre}
    (hg : (db.genres.filter (fun x => x.id == pk)).head? = some g)
    (hnil : genreAssocSongs db g = []) :
    genreConflictData db pk = none := by
  unfold genreConflictData
  cases hfl : db.genres.filter (fun x => x.id == pk) with
  | nil => rfl
  | cons a t =>
    rw [hfl] at hg
    rw [List.head?_cons] at hg
    injection hg with h2
    subst h2
    show (if (genreAssocSongs db a).isEmpty then none
        else some (a, genreAssocSongs db a)) = none
    rw [if_pos (List.isEmpty_iff.2 hnil)]

theorem fundConflictData_eq_some {db : DB} {pk : Nat} {fu : Fund}
    (hg : (db.funds.filter (fun x => x.id == pk)).head? = some fu)
    (hne : fundAssocSongs db fu ≠ []) :
    fundConflictData db pk = some (fu, fundAssocSongs db fu) := by
  unfold fundConflictData
  cases hfl : db.funds.filter (fun x => x.id == pk) with
  | nil =>
    rw [hfl] at hg
    cases hg
  | cons a t =>
    rw [hfl] at hg
    rw [List.head?_cons] at hg
    injection hg with h2
    subst h2
    show (if (fundAssocSongs db a).isEmpty then none
        else some (a, fundAssocSongs db a)) = some (a, fundAssocSongs db a)
    rw [if_neg (fun hemp => hne (List.isEmpty_iff.1 hemp))]

theorem fundConflictData_eq_none {db : DB} {pk : Nat} {fu : Fund}
    (hg : (db.funds.filter (fun x => x.id == pk)).head? = some fu)
    (hnil : fundAssocSongs db fu = []) :
    fundConflictData db pk = none := by
  unfold fundConflictData
  cases hfl : db.funds.filter (fun x => x.id == pk) with
  | nil => rfl
  | cons a t =>
    rw [hfl] at hg
    rw [List.head?_cons] at hg
    injection hg with h2
    subst h2
    show (if (fundAssocSongs db a).isEmpty then none
        else some (a, fundAssocSongs db a)) = none
    rw [if_pos (List.isEmpty_iff.2 hnil)]

/-- Claim C5: for Genre and Fund alike, a delete request with at least one
associated Record (regardless of that Record's active or education status)
is answered with the conflict message - which names the entity and every
blocking Record title - the database is left unchanged and the entity still
exists; a delete request with zero associated Records proceeds and removes
the entity. -/
theorem c5_taxonomy_guard (db : DB) (pk : Nat) :
    (∀ g : Genre, (db.genres.filter (fun x => x.id == pk)).head? = some g →
      ((genreAssocSongs db g ≠ [] →
          genre_delete_model db pk = .conflict (genreBlockMessage g (genreAssocSongs db g))
          ∧ mentions (genreBlockMessage g (genreAssocSongs db g)) (genreStr g)
          ∧ (∀ s ∈ genreAssocSongs db g,
              mentions (genreBlockMessage g (genreAssocSongs db g)) (songStr s))
          ∧ dbAfter db (genre_delete_model db pk) = db
          ∧ g ∈ (dbAfter db (genre_delete_model db pk)).genres)
        ∧ (genreAssocSongs db g = [] →
            genre_delete_model db pk = .deleted (removeGenre db pk) [ "filter_songs"]
            ∧ ∀ x ∈ (removeGenre db pk).genres, x.id ≠ pk)))
    ∧ (∀ fu : Fund, (db.funds.filter (fun x => x.id == pk)).head? = some fu →
      ((fundAssocSongs db fu ≠ [] →
          fund_delete_model db pk = .conflict (fundBlockMessage fu (fundAssocSongs db fu))
          ∧ mentions (fundBlockMessage fu (fundAssocSongs db fu)) (fundStr fu)
          ∧ (∀ s ∈ fundAssocSongs db fu,
              mentions (fundBlockMessage fu (fundAssocSongs db fu)) (songStr s))
          ∧ dbAfter db (fund_delete_model db pk) = db
          ∧ fu ∈ (dbAfter db (fund_delete_model db pk)).funds)
        ∧ (fundAssocSongs db fu = [] →
            fund_delete_model db pk = .deleted (removeFund db pk) []
            ∧ ∀ x ∈ (removeFund db pk).funds, x.id ≠ pk))) := by
  constructor
  · intro g hg
    have hmemg : g ∈ db.genres := by
      have h1 : g ∈ db.genres.filter (fun x => x.id == pk) :=
        List.mem_of_mem_head? (by rw [Option.mem_def]; exact hg)
      exact (List.mem_filter.1 h1).1
    constructor
    · intro hne
      have hcd := genreConflictData_eq_some hg hne
      have hdel : genre_delete_model db pk
          = .conflict (genreBlockMessage g (genreAssocSongs db g)) := by
        unfold genre_delete_model
        rw [hcd]
      refine ⟨hdel, ?_, ?_, by rw [hdel]; rfl, by rw [hdel]; exact hmemg⟩
      · exact mentions_append_right _ (mentions_append_right _ (mentions_append_right _
          (mentions_append_right _ (mentions_append_left _ (mentions_self _)))))
      · intro s hs
        have h1 : mentions (pyJoin ", " ((genreAssocSongs db g).map songStr)) (songStr s) :=
          mentions_pyJoin _ _ _ (List.mem_map_of_mem _ hs)
        exact mentions_append_right _ (mentions_append_left _ h1)
    · intro hnil
      have hcd := genreConflictData_eq_none hg hnil
      constructor
      · unfold genre_delete_model
        rw [hcd]
      · intro x hx
        have h2 := (List.mem_filter.1 hx).2
        simpa using h2
  · intro fu hg
    have hmemf : fu ∈ db.funds := by
      have h1 : fu ∈ db.funds.filter (fun x => x.id == pk) :=
        List.mem_of_mem_head? (by rw [Option.mem_def]; exact hg)
      exact (List.mem_filter.1 h1).1
    constructor
    · intro hne
      have hcd := fundConflictData_eq_some hg hne
      have hdel : fund_delete_model db pk
          = .conflict (fundBlockMessage fu (fundAssocSongs db fu)) := by
        unfold fund_delete_model
        rw [hcd]
      refine ⟨hdel, ?_, ?_, by rw [hdel]; rfl, by rw [hdel]; exact hmemf⟩
      · exact mentions_append_right _ (mentions_append_right _ (mentions_append_right _
          (mentions_append_right _ (mentions_append_left _ (mentions_self _)))))
      · intro s hs
        have h1 : mentions (pyJoin ", " ((fundAssocSongs db fu).map songStr)) (songStr s) :=
          mentions_pyJoin _ _ _ (List.mem_map_of_mem _ hs)
        exact mentions_append_right _ (mentions_append_left _ h1)
    · intro hnil
      have hcd := fundConflictData_eq_none hg hnil
      constructor
      · unfold fund_delete_model
        rw [hcd]
      · intro x hx
        have h2 := (List.mem_filter.1 hx).2
        simpa using h2

/-- Witness for c5_taxonomy_guard: in db1 the genre with one associated song
is blocked (conflict naming the genre and the song title), and in dbTwoGenres
the song-less genre with id 2 is deleted. -/
theorem c5_witness :
    (genre_delete_model db1 1
        = .conflict (genreBlockMessage genre1 (genreAssocSongs db1 genre1))
      ∧ mentions (genreBlockMessage genre1 (genreAssocSongs db1 genre1)) (genreStr genre1))
    ∧ genre_delete_model dbTwoGenres 2 = .deleted (removeGenre dbTwoGenres 2) [ "filter_songs"] := by
  constructor
  · have h := ((c5_taxonomy_guard db1 1).1 genre1 (by decide)).1 (by decide)
    exact ⟨h.1, h.2.1⟩
  · exact (((c5_taxonomy_guard dbTwoGenres 2).1 genre2 (by decide)).2 (by decide)).1

/-- Claim C9 counterexample: no fixed bound caps the list of blocking Record
titles in the conflict result - for every candidate cap there is a database
whose blocked genre deletion enumerates more than cap blocking Records. -/
theorem c9_counterexample : titlesCapped = False := by
  apply eq_false
  rintro ⟨cap, h⟩
  have hall : genreAssocSongs (manySongsDB (cap + 1)) genre1
      = (manySongsDB (cap + 1)).songs := by
    apply List.filter_eq_self.2
    intro s hs
    rcases List.mem_map.1 hs with ⟨i, hi, rfl⟩
    show List.contains ((List.range (cap + 1)).map (fun j => (j + 1, 1))) (i + 1, 1) = true
    rw [List.contains_iff_exists_mem_beq]
    exact ⟨(i + 1, 1), List.mem_map_of_mem _ hi, by simp⟩
  have hlen : (manySongsDB (cap + 1)).songs.length = cap + 1 := by
    simp [manySongsDB]
  have hne : genreAssocSongs (manySongsDB (cap + 1)) genre1 ≠ [] := by
    rw [hall]
    intro hnil
    rw [hnil] at hlen
    simp at hlen
  have hcd := @genreConflictData_eq_some (manySongsDB (cap + 1)) 1 genre1 rfl hne
  have hle := h _ _ _ _ hcd
  rw [hall, hlen] at hle
  omega

/-- Claim C9 (amended): the conflict result enumerates the titles of all
blocking Records - the songs passed to the message are exactly every Record
associated with the entity, with no cap and no truncation marker. -/
theorem c9_uncapped (db : DB) (pk : Nat) :
    (∀ (g : Genre) (songs : List Song), genreConflictData db pk = some (g, songs) →
      songs = db.songs.filter (fun s => db.songGenres.contains (s.id, pk))
      ∧ genre_delete_model db pk = .conflict (genreBlockMessage g songs))
    ∧ (∀ (fu : Fund) (songs : List Song), fundConflictData db pk = some (fu, songs) →
      songs = db.songs.filter (fun s => s.fund_id == pk)
      ∧ fund_delete_model db pk = .conflict (fundBlockMessage fu songs)) := by
  constructor
  · intro g songs h
    have hdel : genre_delete_model db pk = .conflict (genreBlockMessage g songs) := by
      unfold genre_delete_model
      rw [h]
    refine ⟨?_, hdel⟩
    have h2 := h
    unfold genreConflictData at h2
    cases hfl : db.genres.filter (fun x => x.id == pk) with
    | nil =>
      rw [hfl] at h2
      exact absurd h2 (by simp)
    | cons a t =>
      rw [hfl] at h2
      replace h2 : (if (genreAssocSongs db a).isEmpty then none
          else some (a, genreAssocSongs db a)) = some (g, songs) := h2
      by_cases he : (genreAssocSongs db a).isEmpty
      · rw [if_pos he] at h2
        cases h2
      · rw [if_neg he] at h2
        injection h2 with h3
        have hag : a = g := congrArg Prod.fst h3
        have hsongs : genreAssocSongs db a = songs := congrArg Prod.snd h3
        have hid : g.id = pk := by
          have hmem : g ∈ db.genres.filter (fun x => x.id == pk) := by
            rw [hfl, ← hag]
            exact List.mem_cons_self a t
          simpa using (List.mem_filter.1 hmem).2
        rw [← hsongs, hag]
        unfold genreAssocSongs
        rw [hid]
  · intro fu songs h
    have hdel : fund_delete_model db pk = .conflict (fundBlockMessage fu songs) := by
      unfold fund_delete_model
      rw [h]
    refine ⟨?_, hdel⟩
    have h2 := h
    unfold fundConflictData at h2
    cases hfl : db.funds.filter (fun x => x.id == pk) with
    | nil =>
      rw [hfl] at h2
      exact absurd h2 (by simp)
    | cons a t =>
      rw [hfl] at h2
      replace h2 : (if (fundAssocSongs db a).isEmpty then none
          else some (a, fundAssocSongs db a)) = some (fu, songs) := h2
      by_cases he : (fundAssocSongs db a).isEmpty
      · rw [if_pos he] at h2
        cases h2
      · rw [if_neg he] at h2
        injection h2 with h3
        have hag : a = fu := congrArg Prod.fst h3
        have hsongs : fundAssocSongs db a = songs := congrArg Prod.snd h3
        have hid : fu.id = pk := by
          have hmem : fu ∈ db.funds.filter (fun x => x.id == pk) := by
            rw [hfl, ← hag]
            exact List.mem_cons_self a t
          simpa using (List.mem_filter.1 hmem).2
        rw [← hsongs, hag]
        unfold fundAssocSongs
        rw [hid]

/-- Witness for c9_uncapped at db1: the blocked genre deletion enumerates
exactly the full association set of genre 1. -/
theorem c9_witness :
    genreAssocSongs db1 genre1
        = db1.songs.filter (fun s => db1.songGenres.contains (s.id, 1))
    ∧ genre_delete_model db1 1
        = .conflict (genreBlockMessage genre1 (genreAssocSongs db1 genre1)) :=
  (c9_uncapped db1 1).1 genre1 (genreAssocSongs db1 genre1) (by decide)

/-- Witness for c8_facet_contract: in db1 with the empty filter, the country
facet contains Ukraine with the spec-side distinct count. -/
theorem c8_witness :
    ∃ e ∈ facetEntries Dim.country db1 f0, e.id = 1 ∧ e.name = "Ukraine"
      ∧ e.song_count = specCount db1 Dim.country (facetParams Dim.country f0) 1 :=
  (c8_facet_contract Dim.country db1 f0 db1_inv).2.1 (1, "Ukraine") (by decide) (by decide)
